import Mathlib

/-!
# Photo search query composition (`internal/photoprism/search.go`)

A shallow embedding of `Search.Photos`: the criteria record, the query
descriptor that the chain of builder calls composes, and the evaluation of
that descriptor over a catalog of photos, files, locations and tags.

Floating-point criteria are finite float64 values kept as rationals; the
bounding box of lines 213 to 220 is computed with every float64 operation
rounded to nearest, ties to even. Times are whole seconds counted from Go's
zero `time.Time`. The lower-case mapping of runes behind `strings.ToLower` is
a table of Go's library and is taken as the parameter `lower`.
The criteria are those left by `form.ParseQueryString()`; line numbers refer
to `search.go`.
-/

namespace Photoprism

/-! ## Criteria -/

/-- Go's `time.Time`, as whole seconds elapsed since its zero value (January 1,
year 1, 00:00:00 UTC), with the offset of the value's own zone east of UTC, in
seconds. -/
structure Time where
  sec : Int
  zone : Int := 0
  deriving DecidableEq, Repr

namespace Time

/-- Zero test of `time.Time`: the zero time instant, whatever the zone. -/
def IsZero (t : Time) : Bool := t.sec == 0

/-- Calendar day of a time in its own zone; it is what
`t.Format("2006-01-02")` prints, kept as the day number (days elapsed since
the zero time) rather than as text. -/
def day (t : Time) : Int := (t.sec + t.zone) / 86400

end Time

/-- Modelled from the spec: the criteria record `forms.PhotoSearchForm`, whose
declaration is outside `search.go`. A field per selector used by
`Search.Photos`; `Dist` and `Chroma` are unsigned integers, `Camera`, `Count`
and `Offset` signed integers. `Lat`, `Long`, `Fmin` and `Fmax` are float64
fields: the rational is the finite float64 value the field holds. -/
structure PhotoSearchForm where
  Query : String := ""
  Location : Bool := false
  Tags : String := ""
  Country : String := ""
  Color : String := ""
  Camera : Int := 0
  Title : String := ""
  Description : String := ""
  Notes : String := ""
  Hash : String := ""
  Duplicate : Bool := false
  Lat : ℚ := 0
  Long : ℚ := 0
  Dist : Nat := 0
  Fmin : ℚ := 0
  Fmax : ℚ := 0
  Chroma : Nat := 0
  Mono : Bool := false
  Portrait : Bool := false
  Before : Time := { sec := 0 }
  After : Time := { sec := 0 }
  Favorites : Bool := false
  Count : Int := 0
  Offset : Int := 0
  Order : String := ""
  deriving DecidableEq

/-! ## Float64 arithmetic -/

/-- Rounding of a rational to the nearest integer, ties to the even one. -/
def roundHalfEven (y : ℚ) : ℤ :=
  if y - ⌊y⌋ < 1 / 2 then ⌊y⌋
  else if 1 / 2 < y - ⌊y⌋ then ⌊y⌋ + 1
  else if ⌊y⌋ % 2 = 0 then ⌊y⌋ else ⌊y⌋ + 1

/-- The binary exponent of the float64 binade of a positive rational: exponents
from -1022 upwards (below that the subnormal range). -/
def f64Exp (x : ℚ) : ℤ := max (Int.log 2 x) (-1022)

/-- The spacing of float64 values in the binade of a positive rational: 53
significant bits. -/
def f64Ulp (x : ℚ) : ℚ := (2 : ℚ) ^ (f64Exp x - 52)

/-- Rounding of a non-negative rational to float64. -/
def roundPos (x : ℚ) : ℚ := (roundHalfEven (x / f64Ulp x) : ℚ) * f64Ulp x

/-- Rounding of a rational to the nearest float64 value, ties to even, the
rounding of every Go float64 operation (IEEE 754 binary64). The values of
`Search.Photos` stay below 2^1024 in magnitude, where float64 has no overflow. -/
def roundF64 (x : ℚ) : ℚ := if 0 ≤ x then roundPos x else -roundPos (-x)

/-- The rational is a finite float64 value. -/
def IsFloat64 (x : ℚ) : Prop := roundF64 x = x ∧ |x| < (2 : ℚ) ^ (1024 : ℤ)

instance (x : ℚ) : Decidable (IsFloat64 x) := by
  unfold IsFloat64
  infer_instance

/-- Float64 subtraction `a - b`. -/
def f64Sub (a b : ℚ) : ℚ := roundF64 (a - b)

/-- Float64 addition `a + b`. -/
def f64Add (a b : ℚ) : ℚ := roundF64 (a + b)

/-- Float64 multiplication `a * b`. -/
def f64Mul (a b : ℚ) : ℚ := roundF64 (a * b)

/-- The conversion `float64(n)` of an unsigned integer. -/
def float64 (n : Nat) : ℚ := roundF64 (n : ℚ)

/-- About 1km: the constant `SearchRadius = 0.009`, as the float64 it becomes
in the float64 expressions of lines 213 to 220. -/
def SearchRadius : ℚ := roundF64 (9 / 1000)

/-- Go's `strings.ToLower`: every rune is mapped through the lower-case
mapping `lower` (`unicode.ToLower`). The store's `LOWER` is taken to fold the
same way. -/
def ToLower (lower : Char → Char) (s : String) : String := ⟨s.data.map lower⟩

/-! ## Query descriptor -/

/-- One `Where` call of `Search.Photos`, with its bound parameters. Each
constructor stands for one SQL condition text of the source, given by
`Pred.sql`. -/
inductive Pred where
  /-- Line 132, `photos.deleted_at IS NULL AND files.file_missing = 0`. -/
  | base
  /-- Line 136, `location_id > 0`. -/
  | locationExists
  /-- Line 140, `LOWER(locations.loc_display_name) LIKE ?`. -/
  | locNameLike (pat : String)
  /-- Line 144, `tags.tag_label LIKE ? OR LOWER(photo_title) LIKE ? OR
  LOWER(files.file_main_color) LIKE ?`, three bound parameters. -/
  | textLike (tagPat titlePat colorPat : String)
  /-- Line 148, `photos.camera_id = ?`. -/
  | cameraEq (id : Int)
  /-- Line 152, `files.file_main_color = ?`. -/
  | colorEq (color : String)
  /-- Line 156, `photos.photo_favorite = 1`. -/
  | favorite
  /-- Line 160, `locations.loc_country_code = ?`. -/
  | countryEq (code : String)
  /-- Line 164, `tags.tag_label = ?`. -/
  | tagEq (label : String)
  /-- Line 168, `LOWER(photos.photo_title) LIKE ?`. -/
  | titleLike (pat : String)
  /-- Line 172, `LOWER(photos.photo_description) LIKE ?`. -/
  | descriptionLike (pat : String)
  /-- Line 176, `LOWER(photos.photo_notes) LIKE ?`. -/
  | notesLike (pat : String)
  /-- Line 180, `files.file_hash = ?`. -/
  | hashEq (hash : String)
  /-- Line 184, `files.file_duplicate = 1`. -/
  | duplicate
  /-- Line 188, `files.file_portrait = 1`. -/
  | portrait
  /-- Line 192, `files.file_chroma = 0`. -/
  | chromaZero
  /-- Line 194, `files.file_chroma > ?`. -/
  | chromaGt (threshold : Nat)
  /-- Line 198, `photos.photo_aperture >= ?`. -/
  | apertureGe (fmin : ℚ)
  /-- Line 202, `photos.photo_aperture <= ?`. -/
  | apertureLe (fmax : ℚ)
  /-- Line 215, `photos.photo_lat BETWEEN ? AND ?`. -/
  | latBetween (latMin latMax : ℚ)
  /-- Line 221, `photos.photo_long BETWEEN ? AND ?`. -/
  | longBetween (longMin longMax : ℚ)
  /-- Line 225, `photos.taken_at <= ?`, bound to a calendar day. -/
  | takenAtLe (day : Int)
  /-- Line 229, `photos.taken_at >= ?`, bound to a calendar day. -/
  | takenAtGe (day : Int)
  deriving DecidableEq

/-- The SQL condition text each predicate is composed with. -/
def Pred.sql : Pred → String
  | .base => "photos.deleted_at IS NULL AND files.file_missing = 0"
  | .locationExists => "location_id > 0"
  | .locNameLike _ => "LOWER(locations.loc_display_name) LIKE ?"
  | .textLike _ _ _ =>
    "tags.tag_label LIKE ? OR LOWER(photo_title) LIKE ? OR LOWER(files.file_main_color) LIKE ?"
  | .cameraEq _ => "photos.camera_id = ?"
  | .colorEq _ => "files.file_main_color = ?"
  | .favorite => "photos.photo_favorite = 1"
  | .countryEq _ => "locations.loc_country_code = ?"
  | .tagEq _ => "tags.tag_label = ?"
  | .titleLike _ => "LOWER(photos.photo_title) LIKE ?"
  | .descriptionLike _ => "LOWER(photos.photo_description) LIKE ?"
  | .notesLike _ => "LOWER(photos.photo_notes) LIKE ?"
  | .hashEq _ => "files.file_hash = ?"
  | .duplicate => "files.file_duplicate = 1"
  | .portrait => "files.file_portrait = 1"
  | .chromaZero => "files.file_chroma = 0"
  | .chromaGt _ => "files.file_chroma > ?"
  | .apertureGe _ => "photos.photo_aperture >= ?"
  | .apertureLe _ => "photos.photo_aperture <= ?"
  | .latBetween _ _ => "photos.photo_lat BETWEEN ? AND ?"
  | .longBetween _ _ => "photos.photo_long BETWEEN ? AND ?"
  | .takenAtLe _ => "photos.taken_at <= ?"
  | .takenAtGe _ => "photos.taken_at >= ?"

/-- Sort clause given to `Order`. -/
inductive OrderBy where
  /-- `taken_at DESC`. -/
  | takenAtDesc
  /-- `taken_at`. -/
  | takenAtAsc
  /-- `created_at DESC`. -/
  | createdAtDesc
  deriving DecidableEq, Repr

/-- The query descriptor built by the chain of builder calls: the table, joins
and grouping are fixed (lines 114 to 133); the conditions, order clauses and
window vary with the criteria. -/
structure Query where
  table : String
  select : List String
  joins : List String
  group : String
  wheres : List Pred
  orders : List OrderBy
  limit : Int
  offset : Int
  deriving DecidableEq

/-- Pattern `"%" + strings.ToLower(s) + "%"` of the substring conditions. -/
def likeString (lower : Char → Char) (s : String) : String := "%" ++ ToLower lower s ++ "%"

/-- Lines 135 to 145: the conditions of the free-text branch. -/
def textWheres (lower : Char → Char) (form : PhotoSearchForm) : List Pred :=
  if form.Location = true then
    Pred.locationExists ::
      (if form.Query ≠ "" then [Pred.locNameLike (likeString lower form.Query)] else [])
  else if form.Query ≠ "" then
    [Pred.textLike (likeString lower form.Query) (likeString lower form.Query)
      (likeString lower form.Query)]
  else []

/-- Lines 147 to 189: the independent field conditions. -/
def fieldWheres (lower : Char → Char) (form : PhotoSearchForm) : List Pred :=
  (if form.Camera > 0 then [Pred.cameraEq form.Camera] else []) ++
  (if form.Color ≠ "" then [Pred.colorEq form.Color] else []) ++
  (if form.Favorites then [Pred.favorite] else []) ++
  (if form.Country ≠ "" then [Pred.countryEq form.Country] else []) ++
  (if form.Tags ≠ "" then [Pred.tagEq form.Tags] else []) ++
  (if form.Title ≠ "" then [Pred.titleLike (likeString lower form.Title)] else []) ++
  (if form.Description ≠ "" then [Pred.descriptionLike (likeString lower form.Description)]
   else []) ++
  (if form.Notes ≠ "" then [Pred.notesLike (likeString lower form.Notes)] else []) ++
  (if form.Hash ≠ "" then [Pred.hashEq form.Hash] else []) ++
  (if form.Duplicate then [Pred.duplicate] else []) ++
  (if form.Portrait then [Pred.portrait] else [])

/-- Lines 191 to 195: the chroma conditions. -/
def chromaWheres (form : PhotoSearchForm) : List Pred :=
  if form.Mono then [Pred.chromaZero]
  else if form.Chroma > 0 then [Pred.chromaGt form.Chroma]
  else []

/-- Lines 197 to 203: the aperture conditions. -/
def apertureWheres (form : PhotoSearchForm) : List Pred :=
  (if form.Fmin > 0 then [Pred.apertureGe form.Fmin] else []) ++
  (if form.Fmax > 0 then [Pred.apertureLe form.Fmax] else [])

/-- Lines 205 to 209: the radius after defaulting and clamping. -/
def effectiveDist (form : PhotoSearchForm) : Nat :=
  if form.Dist = 0 then 20 else if form.Dist > 1000 then 1000 else form.Dist

/-- The float64 product `SearchRadius*float64(form.Dist)` of lines 213 to 220,
over the effective radius. -/
def halfWidth (form : PhotoSearchForm) : ℚ :=
  f64Mul SearchRadius (float64 (effectiveDist form))

/-- Lines 211 to 222: the bounding-box conditions, in float64, each operation
rounded on its own (the product is not fused with the difference or sum). -/
def geoWheres (form : PhotoSearchForm) : List Pred :=
  (if form.Lat > 0 then
    [Pred.latBetween (f64Sub form.Lat (halfWidth form)) (f64Add form.Lat (halfWidth form))]
   else []) ++
  (if form.Long > 0 then
    [Pred.longBetween (f64Sub form.Long (halfWidth form)) (f64Add form.Long (halfWidth form))]
   else [])

/-- Lines 224 to 230: the date-taken conditions. -/
def dateWheres (form : PhotoSearchForm) : List Pred :=
  (if !form.Before.IsZero then [Pred.takenAtLe form.Before.day] else []) ++
  (if !form.After.IsZero then [Pred.takenAtGe form.After.day] else [])

/-- Lines 132 to 230: all conditions, in the order the source adds them. -/
def photosWheres (lower : Char → Char) (form : PhotoSearchForm) : List Pred :=
  Pred.base :: (textWheres lower form ++ fieldWheres lower form ++ chromaWheres form ++
    apertureWheres form ++ geoWheres form ++ dateWheres form)

/-- Lines 232 to 241: the order clause. -/
def photosOrder (form : PhotoSearchForm) : OrderBy :=
  if form.Order = "newest" then OrderBy.takenAtDesc
  else if form.Order = "oldest" then OrderBy.takenAtAsc
  else if form.Order = "imported" then OrderBy.createdAtDesc
  else OrderBy.takenAtDesc

/-- Lines 243 to 247: the limit and offset handed to the builder. -/
def photosWindow (form : PhotoSearchForm) : Int × Int :=
  if form.Count > 0 ∧ form.Count ≤ 1000 then (form.Count, form.Offset) else (100, 0)

/-- The `JOIN` clauses of lines 125 to 131. -/
def photosJoins : List String :=
  ["JOIN files ON files.photo_id = photos.id AND files.file_primary AND files.deleted_at IS NULL",
   "JOIN cameras ON cameras.id = photos.camera_id",
   "JOIN lenses ON lenses.id = photos.lens_id",
   "LEFT JOIN countries ON countries.id = photos.country_id",
   "LEFT JOIN locations ON locations.id = photos.location_id",
   "LEFT JOIN photo_tags ON photo_tags.photo_id = photos.id",
   "LEFT JOIN tags ON photo_tags.tag_id = tags.id"]

/-- The select list of lines 115 to 124, one entry per expression. -/
def photosSelect : List String :=
  ["SQL_CALC_FOUND_ROWS photos.*",
   "files.id AS file_id", "files.file_primary", "files.file_missing", "files.file_name",
   "files.file_hash", "files.file_type", "files.file_mime", "files.file_width",
   "files.file_height", "files.file_aspect_ratio", "files.file_orientation",
   "files.file_main_color", "files.file_colors", "files.file_luminance", "files.file_chroma",
   "cameras.camera_make", "cameras.camera_model",
   "lenses.lens_make", "lenses.lens_model",
   "countries.country_name",
   "locations.loc_display_name", "locations.loc_name", "locations.loc_city",
   "locations.loc_postcode", "locations.loc_county", "locations.loc_state",
   "locations.loc_country", "locations.loc_country_code", "locations.loc_category",
   "locations.loc_type",
   "GROUP_CONCAT(tags.tag_label) AS tags"]

/-- The query `Search.Photos` composes for parsed criteria (lines 110 to 247). -/
def photosQuery (lower : Char → Char) (form : PhotoSearchForm) : Query :=
  { table := "photos"
    select := photosSelect
    joins := photosJoins
    group := "photos.id, files.id"
    wheres := photosWheres lower form
    orders := [photosOrder form]
    limit := (photosWindow form).1
    offset := (photosWindow form).2 }

/-! ## The catalog and the evaluation of a composed query

The store is outside `search.go`. Its tables are taken with the columns the
composed SQL names. A composed query is evaluated as SQL reads it: the `JOIN`
clauses of the query build the joined rows, its conditions filter them, its
`GROUP BY` groups them, its select list fills the result record, then order
and window apply. -/

/-- Modelled from the spec: a row of table `photos`, with the columns the query
reads. `Deleted` stands for `deleted_at IS NOT NULL`. -/
structure Photo where
  ID : Nat
  Deleted : Bool := false
  CreatedAt : Time := { sec := 0 }
  TakenAt : Time := { sec := 0 }
  PhotoTitle : String := ""
  PhotoDescription : String := ""
  PhotoNotes : String := ""
  PhotoLat : ℚ := 0
  PhotoLong : ℚ := 0
  PhotoFavorite : Bool := false
  PhotoAperture : ℚ := 0
  CameraID : Nat := 1
  LensID : Nat := 1
  CountryID : String := ""
  LocationID : Nat := 0
  deriving DecidableEq

/-- Modelled from the spec: a row of table `files`. -/
structure File where
  ID : Nat
  PhotoID : Nat
  Deleted : Bool := false
  FilePrimary : Bool := true
  FileMissing : Bool := false
  FileHash : String := ""
  FileMainColor : String := ""
  FileChroma : Nat := 0
  FileDuplicate : Bool := false
  FilePortrait : Bool := false
  deriving DecidableEq

/-- Modelled from the spec: a row of table `cameras`. -/
structure Camera where
  ID : Nat
  deriving DecidableEq

/-- Modelled from the spec: a row of table `lenses`. -/
structure Lens where
  ID : Nat
  deriving DecidableEq

/-- Modelled from the spec: a row of table `countries`. -/
structure Country where
  ID : String
  CountryName : String := ""
  deriving DecidableEq

/-- Modelled from the spec: a row of table `locations`. -/
structure Location where
  ID : Nat
  LocDisplayName : String := ""
  LocCountryCode : String := ""
  deriving DecidableEq

/-- Modelled from the spec: a row of table `tags`. -/
structure Tag where
  ID : Nat
  TagLabel : String
  deriving DecidableEq

/-- Modelled from the spec: a row of the association table `photo_tags`. -/
structure PhotoTag where
  PhotoID : Nat
  TagID : Nat
  deriving DecidableEq

/-- Modelled from the spec: the tables the query joins. -/
structure Catalog where
  photos : List Photo := []
  files : List File := []
  cameras : List Camera := []
  lenses : List Lens := []
  countries : List Country := []
  locations : List Location := []
  photoTags : List PhotoTag := []
  tags : List Tag := []

/-- A joined row: a photo, its file, and the outer-joined country, location and
tag (`none` for SQL `NULL`). The camera and lens joins only decide whether and
how often the row exists. -/
structure Row where
  photo : Photo
  file : File
  country : Option Country
  location : Option Location
  tag : Option Tag
  deriving DecidableEq

/-- Tests a subject at each of its suffixes. -/
def anySuffix (f : List Char → Bool) : List Char → Bool
  | [] => f []
  | c :: s => f (c :: s) || anySuffix f s

/-- Drops one subject character, whatever it is, and continues. -/
def skipOne (k : List Char → Bool) : List Char → Bool
  | [] => false
  | _ :: t => k t

/-- Requires the subject to start with the given character and continues. -/
def matchHead (c : Char) (k : List Char → Bool) : List Char → Bool
  | [] => false
  | d :: t => c == d && k t

/-- The SQL `LIKE` operator of the store, pattern first: `%` matches any run of
characters, `_` any one character, a backslash makes the next pattern character
literal, every other character matches itself exactly, as under a binary
collation. The conditions of `Search.Photos` lower-case the column themselves
where they mean to ignore letter case (lines 140, 144, 168, 172 and 176). -/
def likeMatch : List Char → List Char → Bool
  | [], s => s.isEmpty
  | c :: p, s =>
    if c = '%' then anySuffix (likeMatch p) s
    else if c = '_' then skipOne (likeMatch p) s
    else if c = '\\' then
      match p with
      | [] => matchHead c (likeMatch []) s
      | e :: q => matchHead e (likeMatch q) s
    else matchHead c (likeMatch p) s

/-- `column LIKE ?` on a nullable text column; `NULL LIKE ?` is not true. -/
def likeOpt (pat : String) : Option String → Bool
  | none => false
  | some s => likeMatch pat.data s.data

/-- Truth of a condition on a joined row, by the SQL reading of its text. A
bound calendar day compared with the `taken_at` timestamp stands for that day
at 00:00:00 (the store keeps and reads times in UTC); a comparison with `NULL`
is not true. -/
def Pred.eval (lower : Char → Char) (r : Row) : Pred → Bool
  | .base => !r.photo.Deleted && !r.file.FileMissing
  | .locationExists => decide (r.photo.LocationID > 0)
  | .locNameLike pat => likeOpt pat (r.location.map fun l => ToLower lower l.LocDisplayName)
  | .textLike tagPat titlePat colorPat =>
    likeOpt tagPat (r.tag.map fun t => t.TagLabel) ||
    likeMatch titlePat.data (ToLower lower r.photo.PhotoTitle).data ||
    likeMatch colorPat.data (ToLower lower r.file.FileMainColor).data
  | .cameraEq id => decide ((r.photo.CameraID : Int) = id)
  | .colorEq color => decide (r.file.FileMainColor = color)
  | .favorite => r.photo.PhotoFavorite
  | .countryEq code => decide (r.location.map (fun l => l.LocCountryCode) = some code)
  | .tagEq label => decide (r.tag.map (fun t => t.TagLabel) = some label)
  | .titleLike pat => likeMatch pat.data (ToLower lower r.photo.PhotoTitle).data
  | .descriptionLike pat => likeMatch pat.data (ToLower lower r.photo.PhotoDescription).data
  | .notesLike pat => likeMatch pat.data (ToLower lower r.photo.PhotoNotes).data
  | .hashEq hash => decide (r.file.FileHash = hash)
  | .duplicate => r.file.FileDuplicate
  | .portrait => r.file.FilePortrait
  | .chromaZero => decide (r.file.FileChroma = 0)
  | .chromaGt threshold => decide (r.file.FileChroma > threshold)
  | .apertureGe fmin => decide (r.photo.PhotoAperture ≥ fmin)
  | .apertureLe fmax => decide (r.photo.PhotoAperture ≤ fmax)
  | .latBetween latMin latMax => decide (latMin ≤ r.photo.PhotoLat ∧ r.photo.PhotoLat ≤ latMax)
  | .longBetween longMin longMax =>
    decide (longMin ≤ r.photo.PhotoLong ∧ r.photo.PhotoLong ≤ longMax)
  | .takenAtLe day => decide (r.photo.TakenAt.sec ≤ day * 86400)
  | .takenAtGe day => decide (r.photo.TakenAt.sec ≥ day * 86400)

/-- Outer join: the matches, or one `NULL` when there is none. -/
def leftJoin {α : Type} (xs : List α) : List (Option α) :=
  if xs.isEmpty then [none] else xs.map some

/-- Tags joined to one `photo_tags` row (`LEFT JOIN tags ON photo_tags.tag_id = tags.id`). -/
def joinTags (c : Catalog) : Option PhotoTag → List (Option Tag)
  | none => [none]
  | some pt => leftJoin (c.tags.filter fun t => t.ID == pt.TagID)

/-- A row under construction while the `JOIN` clauses are applied in turn:
the photo, and the parts joined so far (`none` for a part not joined yet or
for SQL `NULL`). -/
structure Joined where
  photo : Photo
  file : Option File := none
  country : Option Country := none
  location : Option Location := none
  photoTag : Option PhotoTag := none
  tag : Option Tag := none

/-- One `JOIN` clause applied to a row under construction, by the SQL reading
of its text; a clause the model does not know joins nothing. -/
def joinClause (c : Catalog) (clause : String) (j : Joined) : List Joined :=
  if clause =
    "JOIN files ON files.photo_id = photos.id AND files.file_primary AND files.deleted_at IS NULL"
  then
    (c.files.filter fun f => f.PhotoID == j.photo.ID && f.FilePrimary && !f.Deleted).map
      fun f => { j with file := some f }
  else if clause = "JOIN cameras ON cameras.id = photos.camera_id" then
    (c.cameras.filter fun cam => cam.ID == j.photo.CameraID).map fun _ => j
  else if clause = "JOIN lenses ON lenses.id = photos.lens_id" then
    (c.lenses.filter fun l => l.ID == j.photo.LensID).map fun _ => j
  else if clause = "LEFT JOIN countries ON countries.id = photos.country_id" then
    (leftJoin (c.countries.filter fun co => co.ID == j.photo.CountryID)).map
      fun co => { j with country := co }
  else if clause = "LEFT JOIN locations ON locations.id = photos.location_id" then
    (leftJoin (c.locations.filter fun l => l.ID == j.photo.LocationID)).map
      fun loc => { j with location := loc }
  else if clause = "LEFT JOIN photo_tags ON photo_tags.photo_id = photos.id" then
    (leftJoin (c.photoTags.filter fun pt => pt.PhotoID == j.photo.ID)).map
      fun pt => { j with photoTag := pt }
  else if clause = "LEFT JOIN tags ON photo_tags.tag_id = tags.id" then
    (joinTags c j.photoTag).map fun t => { j with tag := t }
  else []

/-- All `JOIN` clauses applied in turn, starting from the rows of `photos`. -/
def joinAll (c : Catalog) (joins : List String) : List Joined :=
  joins.foldl (fun rows clause => rows.flatMap (joinClause c clause))
    (c.photos.map fun p => { photo := p })

/-- The joined row of a finished construction; the conditions and the select
list read columns of `files`, so a row without a file part yields nothing. -/
def Joined.toRow (j : Joined) : Option Row :=
  j.file.map fun f =>
    { photo := j.photo, file := f, country := j.country, location := j.location, tag := j.tag }

/-- The joined rows of a query: its `JOIN` clauses over its table. -/
def joinRows (c : Catalog) (q : Query) : List Row :=
  if q.table = "photos" then (joinAll c q.joins).filterMap Joined.toRow else []

/-- A joined row passes when every condition holds on it. -/
def passes (lower : Char → Char) (ws : List Pred) (r : Row) : Bool :=
  ws.all fun w => w.eval lower r

/-- The joined rows of a query that pass its conditions (`WHERE`). -/
def passingRows (lower : Char → Char) (c : Catalog) (q : Query) : List Row :=
  (joinRows c q).filter (passes lower q.wheres)

/-- Grouping key `photos.id, files.id`. -/
def Row.key (r : Row) : Nat × Nat := (r.photo.ID, r.file.ID)

/-- The passing rows of a query that fall in the group of the given photo and
file identity. -/
def groupRows (lower : Char → Char) (c : Catalog) (q : Query) (k : Nat × Nat) : List Row :=
  (passingRows lower c q).filter fun r => r.key == k

/-- The groups of the passing rows, by the `GROUP BY` text of the query: one
group per photo and file identity for `photos.id, files.id`; without grouping
the rows stay apart, or fall into a single group when the select list
aggregates; a grouping the model does not know gives nothing. -/
def groupsOf (lower : Char → Char) (c : Catalog) (q : Query) : List (List Row) :=
  if q.group = "photos.id, files.id" then
    ((passingRows lower c q).map Row.key).dedup.map fun k => groupRows lower c q k
  else if q.group = "" then
    if "GROUP_CONCAT(tags.tag_label) AS tags" ∈ q.select then [passingRows lower c q]
    else (passingRows lower c q).map fun r => [r]
  else []

/-- `GROUP_CONCAT(tags.tag_label)`: the non-`NULL` labels of a group, joined
by commas; the empty string when there is none. -/
def groupConcat (rows : List Row) : String :=
  String.intercalate "," (rows.filterMap fun r => r.tag.map fun t => t.TagLabel)

/-- The result record `PhotoSearchResult`, with the columns the model carries;
the remaining columns of the source record are copied the same way. -/
structure PhotoSearchResult where
  ID : Nat
  CreatedAt : Time
  TakenAt : Time
  PhotoTitle : String
  PhotoDescription : String
  PhotoLat : ℚ
  PhotoLong : ℚ
  PhotoFavorite : Bool
  CameraID : Nat
  LensID : Nat
  CountryID : String
  CountryName : String
  LocationID : Nat
  LocDisplayName : String
  LocCountryCode : String
  FileID : Nat
  FilePrimary : Bool
  FileMissing : Bool
  FileHash : String
  Tags : String
  deriving DecidableEq

/-- The zero value of a `PhotoSearchResult`, as `Scan` starts from. -/
def PhotoSearchResult.zero : PhotoSearchResult :=
  { ID := 0, CreatedAt := { sec := 0 }, TakenAt := { sec := 0 }, PhotoTitle := "",
    PhotoDescription := "", PhotoLat := 0, PhotoLong := 0, PhotoFavorite := false,
    CameraID := 0, LensID := 0, CountryID := "", CountryName := "", LocationID := 0,
    LocDisplayName := "", LocCountryCode := "", FileID := 0, FilePrimary := false,
    FileMissing := false, FileHash := "", Tags := "" }

/-- One expression of the select list, scanned into the result record from the
first row of a group; `GROUP_CONCAT` aggregates over the whole group. An
expression for a column the model does not carry leaves the record as it is. -/
def selectColumn (first : Row) (group : List Row) (expr : String)
    (acc : PhotoSearchResult) : PhotoSearchResult :=
  if expr = "SQL_CALC_FOUND_ROWS photos.*" then
    { acc with
      ID := first.photo.ID
      CreatedAt := first.photo.CreatedAt
      TakenAt := first.photo.TakenAt
      PhotoTitle := first.photo.PhotoTitle
      PhotoDescription := first.photo.PhotoDescription
      PhotoLat := first.photo.PhotoLat
      PhotoLong := first.photo.PhotoLong
      PhotoFavorite := first.photo.PhotoFavorite
      CameraID := first.photo.CameraID
      LensID := first.photo.LensID
      CountryID := first.photo.CountryID
      LocationID := first.photo.LocationID }
  else if expr = "files.id AS file_id" then { acc with FileID := first.file.ID }
  else if expr = "files.file_primary" then { acc with FilePrimary := first.file.FilePrimary }
  else if expr = "files.file_missing" then { acc with FileMissing := first.file.FileMissing }
  else if expr = "files.file_hash" then { acc with FileHash := first.file.FileHash }
  else if expr = "countries.country_name" then
    { acc with CountryName := (first.country.map fun co => co.CountryName).getD "" }
  else if expr = "locations.loc_display_name" then
    { acc with LocDisplayName := (first.location.map fun l => l.LocDisplayName).getD "" }
  else if expr = "locations.loc_country_code" then
    { acc with LocCountryCode := (first.location.map fun l => l.LocCountryCode).getD "" }
  else if expr = "GROUP_CONCAT(tags.tag_label) AS tags" then
    { acc with Tags := groupConcat group }
  else acc

/-- The result row of one group: the select list scanned in turn. -/
def groupResult (select : List String) : List Row → Option PhotoSearchResult
  | [] => none
  | r :: rs =>
    some (select.foldl (fun acc expr => selectColumn r (r :: rs) expr acc)
      PhotoSearchResult.zero)

/-- One result row per group of passing rows (`WHERE`, then `GROUP BY`, then
the select list). -/
def groupedResults (lower : Char → Char) (c : Catalog) (q : Query) : List PhotoSearchResult :=
  (groupsOf lower c q).filterMap (groupResult q.select)

/-- The order relation of a sort clause on result rows. -/
def OrderBy.le : OrderBy → PhotoSearchResult → PhotoSearchResult → Bool
  | .takenAtDesc, a, b => decide (b.TakenAt.sec ≤ a.TakenAt.sec)
  | .takenAtAsc, a, b => decide (a.TakenAt.sec ≤ b.TakenAt.sec)
  | .createdAtDesc, a, b => decide (b.CreatedAt.sec ≤ a.CreatedAt.sec)

/-- Applies the order clauses, the last one sorting first. -/
def applyOrders : List OrderBy → List PhotoSearchResult → List PhotoSearchResult
  | [], rs => rs
  | o :: os, rs => List.insertionSort (fun a b => o.le a b = true) (applyOrders os rs)

/-- Execution of a composed query on a catalog, as `Scan` materialises it:
join, filter, group and select as the query says, order, then cut the window
(a negative offset is no offset). -/
def runQuery (lower : Char → Char) (c : Catalog) (q : Query) : List PhotoSearchResult :=
  ((applyOrders q.orders (groupedResults lower c q)).drop q.offset.toNat).take q.limit.toNat

/-- The rows `Search.Photos` returns for parsed criteria on a catalog. -/
def photosResults (lower : Char → Char) (c : Catalog) (form : PhotoSearchForm) :
    List PhotoSearchResult :=
  runQuery lower c (photosQuery lower form)

/-- The number of rows `SQL_CALC_FOUND_ROWS` counts for a composed query: the
grouped rows of the filter, before the window is cut. -/
def foundRows (lower : Char → Char) (c : Catalog) (q : Query) : Nat :=
  (groupedResults lower c q).length

/-- The labels of the tags associated with a photo through `photo_tags`. -/
def photoLabels (c : Catalog) (photoID : Nat) : List String :=
  (c.photoTags.filter fun pt => pt.PhotoID == photoID).flatMap fun pt =>
    (c.tags.filter fun t => t.ID == pt.TagID).map fun t => t.TagLabel

/-- A photo with its file satisfies a condition of a query when one of the
joined rows of that photo and file does. -/
def photoSatisfies (lower : Char → Char) (c : Catalog) (q : Query) (p : Photo) (f : File)
    (w : Pred) : Bool :=
  (joinRows c q).any fun r => decide (r.photo = p) && decide (r.file = f) && w.eval lower r

/-- The first string occurs in the second as a substring, letter case ignored:
the lower-cased first is a contiguous part of the lower-cased second. -/
def containsFold (lower : Char → Char) (q s : String) : Bool :=
  decide ((ToLower lower q).data <:+: (ToLower lower s).data)

/-- The conditions that bind the free-text query (lines 140 and 144). -/
def Pred.isQueryText : Pred → Bool
  | .locNameLike _ => true
  | .textLike _ _ _ => true
  | _ => false

/-- The conditions on the chroma column (lines 192 and 194). -/
def Pred.isChroma : Pred → Bool
  | .chromaZero => true
  | .chromaGt _ => true
  | _ => false

/-! ## The entry points -/

/-- A Go `error` value, kept by its message. -/
structure Error where
  msg : String
  deriving DecidableEq, Repr

/-- What one call of `Search.Photos` leaves: its two return values, and the
queries it handed to the store's `Scan`, in order. -/
structure PhotosCall where
  results : List PhotoSearchResult
  err : Option Error
  scanned : List Query

/-- The method `Search.Photos` (lines 103 to 254). `parse` stands for
`form.ParseQueryString()`, declared outside `search.go`: it gives the criteria
it leaves in the form, or its error. `scan` stands for the store executing the
composed query: the rows it materialises, and its error if any. -/
def Search.Photos (lower : Char → Char)
    (parse : PhotoSearchForm → Except Error PhotoSearchForm)
    (scan : Query → List PhotoSearchResult × Option Error) (form : PhotoSearchForm) :
    PhotosCall :=
  match parse form with
  | .error err => { results := [], err := some err, scanned := [] }
  | .ok parsed =>
    match scan (photosQuery lower parsed) with
    | (results, some err) =>
      { results := results, err := some err, scanned := [photosQuery lower parsed] }
    | (results, none) =>
      { results := results, err := none, scanned := [photosQuery lower parsed] }

/-- The error gorm's `First` reports when no record matches. -/
def ErrRecordNotFound : Error := ⟨"record not found"⟩

/-- The record with the least primary key, the first on ties. -/
def leastBy {α : Type} (key : α → Nat) : List α → Option α
  | [] => none
  | a :: l =>
    match leastBy key l with
    | none => some a
    | some b => if key a ≤ key b then some a else some b

/-- The store's `Where(...).First(&record)` on the rows of a table whose model
carries `deleted_at`, as the ORM issues it:
`WHERE deleted_at IS NULL AND (condition) ORDER BY id ASC LIMIT 1`. It gives the
matching record that is not soft-deleted and comes first by primary key, with
no error; or the untouched zero record and `ErrRecordNotFound` when there is
none. -/
def dbFirst {α : Type} (zero : α) (key : α → Nat) (deleted : α → Bool) (rows : List α)
    (cond : α → Bool) : α × Option Error :=
  match leastBy key (rows.filter fun r => !deleted r && cond r) with
  | none => (zero, some ErrRecordNotFound)
  | some r => (r, none)

/-- The `if err := ...; err != nil { return record, err }` followed by
`return record, nil` of lines 268 to 272, 277 to 281 and 286 to 290, on the
answer of the store. -/
def returnFound {α : Type} (answer : α × Option Error) : α × Option Error :=
  match answer.2 with
  | some err => (answer.1, some err)
  | none => (answer.1, none)

/-- The zero value of a `models.File`. -/
def File.zero : File := { ID := 0, PhotoID := 0, FilePrimary := false }

/-- The zero value of a `models.Photo`. -/
def Photo.zero : Photo := { ID := 0, CameraID := 0, LensID := 0 }

/-- A file record with the `Photo` that `Preload("Photo")` attaches to it. -/
structure FoundFile where
  file : File
  photo : Option Photo
  deriving DecidableEq

/-- `Preload("Photo")`: attaches the photo the file belongs to, if there is one
that is not soft-deleted. -/
def preloadPhoto (c : Catalog) (f : File) : FoundFile :=
  { file := f, photo := (c.photos.filter fun p => !p.Deleted && p.ID == f.PhotoID).head? }

/-- The condition `id = ?` bound to an identifier given as text: the text is the
decimal numeral of the key. -/
def idIs (id : String) (key : Nat) : Bool := id.data == Nat.toDigits 10 key

/-- The method `Search.FindFileByID` (lines 267 to 273). -/
def Search.FindFileByID (c : Catalog) (id : String) : FoundFile × Option Error :=
  returnFound
    (match dbFirst File.zero (fun f => f.ID) (fun f => f.Deleted) c.files
        (fun f => idIs id f.ID) with
     | (file, none) => (preloadPhoto c file, none)
     | (file, some err) => ({ file := file, photo := none }, some err))

/-- The method `Search.FindFileByHash` (lines 276 to 282). -/
def Search.FindFileByHash (c : Catalog) (fileHash : String) : FoundFile × Option Error :=
  returnFound
    (match dbFirst File.zero (fun f => f.ID) (fun f => f.Deleted) c.files
        (fun f => f.FileHash == fileHash) with
     | (file, none) => (preloadPhoto c file, none)
     | (file, some err) => ({ file := file, photo := none }, some err))

/-- The method `Search.FindPhotoByID` (lines 285 to 291). -/
def Search.FindPhotoByID (c : Catalog) (photoID : Nat) : Photo × Option Error :=
  returnFound
    (dbFirst Photo.zero (fun p => p.ID) (fun p => p.Deleted) c.photos
      (fun p => p.ID == photoID))

/-! ## Concrete inputs -/

/-- The lower-case mapping of the Basic Latin and Latin-1 letters, as
`unicode.ToLower` has it there; other runes are left as they are. It stands in
for `lower` on the concrete inputs below, which hold no other letters. -/
def latin1Lower (ch : Char) : Char :=
  if ('A' ≤ ch ∧ ch ≤ 'Z') ∨
      (Char.ofNat 192 ≤ ch ∧ ch ≤ Char.ofNat 222 ∧ ch ≠ Char.ofNat 215) then
    Char.ofNat (ch.toNat + 32)
  else ch

/-- A criteria parser that rejects the query string "dist:far". -/
def rejectBadDist (form : PhotoSearchForm) : Except Error PhotoSearchForm :=
  if form.Query = "dist:far" then .error ⟨"invalid syntax"⟩
  else .ok form

/-- A joined row of a photo taken on 2019-05-01 at 10:00:00 UTC (day 737179
since the zero time). -/
def mayDayRow : Row :=
  { photo := { ID := 1, TakenAt := { sec := 63692301600 } }
    file := { ID := 1, PhotoID := 1 }
    country := none, location := none, tag := none }

/-- Identifiers are unique among photos, files and locations, and a photo has at
most one primary file that is not deleted. -/
def Catalog.keyed (c : Catalog) : Prop :=
  (c.photos.map fun p => p.ID).Nodup ∧
  (c.files.map fun f => f.ID).Nodup ∧
  (c.locations.map fun l => l.ID).Nodup ∧
  ∀ f ∈ c.files, ∀ g ∈ c.files, f.PhotoID = g.PhotoID →
    f.FilePrimary = true → g.FilePrimary = true → f.Deleted = false → g.Deleted = false →
    f.ID = g.ID

instance (c : Catalog) : Decidable c.keyed := by
  unfold Catalog.keyed
  infer_instance

/-- A catalog of one photo that carries the three tags "beach", "sun", "sea". -/
def threeTagCatalog : Catalog :=
  { photos := [{ ID := 1, PhotoTitle := "Harbour" }]
    files := [{ ID := 10, PhotoID := 1 }]
    cameras := [{ ID := 1 }]
    lenses := [{ ID := 1 }]
    photoTags := [⟨1, 1⟩, ⟨1, 2⟩, ⟨1, 3⟩]
    tags := [⟨1, "beach"⟩, ⟨2, "sun"⟩, ⟨3, "sea"⟩] }

/-- A catalog of three photos: one titled "Sunny Beach Day", one tagged
"beach-volleyball", and one whose tag "trees", title "Forest walk" and colour
"green" mention no beach. -/
def beachCatalog : Catalog :=
  { photos := [{ ID := 1, PhotoTitle := "Sunny Beach Day" }, { ID := 2, PhotoTitle := "Match point" },
      { ID := 3, PhotoTitle := "Forest walk" }]
    files := [{ ID := 10, PhotoID := 1, FileMainColor := "blue" },
      { ID := 20, PhotoID := 2, FileMainColor := "yellow" },
      { ID := 30, PhotoID := 3, FileMainColor := "green" }]
    cameras := [{ ID := 1 }]
    lenses := [{ ID := 1 }]
    photoTags := [⟨2, 1⟩, ⟨3, 2⟩]
    tags := [⟨1, "beach-volleyball"⟩, ⟨2, "trees"⟩] }

/-- A catalog of one photo titled "Holiday", coloured "blue", whose only tag is
labelled "Beach" with a capital letter. -/
def capitalTagCatalog : Catalog :=
  { photos := [{ ID := 1, PhotoTitle := "Holiday" }]
    files := [{ ID := 10, PhotoID := 1, FileMainColor := "blue" }]
    cameras := [{ ID := 1 }]
    lenses := [{ ID := 1 }]
    photoTags := [⟨1, 1⟩]
    tags := [⟨1, "Beach"⟩] }

/-- A catalog of a deleted photo, a photo whose primary file is missing, a sound
photo, and a photo whose primary file, with hash "d4", is deleted. -/
def exclusionCatalog : Catalog :=
  { photos := [{ ID := 1, Deleted := true }, { ID := 2 }, { ID := 3 }, { ID := 4 }]
    files := [{ ID := 10, PhotoID := 1 }, { ID := 20, PhotoID := 2, FileMissing := true },
      { ID := 30, PhotoID := 3 },
      { ID := 40, PhotoID := 4, FileHash := "d4", Deleted := true }]
    cameras := [{ ID := 1 }]
    lenses := [{ ID := 1 }] }

/-- The criteria of a search around latitude 52.52 and longitude 13.405
(Berlin), both as the float64 values nearest to these decimals, without a
radius. -/
def berlinCriteria : PhotoSearchForm :=
  { Lat := 7391532888421827 / 140737488355328
    Long := 7546344125612687 / 562949953421312
    Dist := 0 }

/-- The joined row of the photo of `beachCatalog` titled "Sunny Beach Day",
which has no tag. -/
def beachTitleRow : Row :=
  { photo := { ID := 1, PhotoTitle := "Sunny Beach Day" }
    file := { ID := 10, PhotoID := 1, FileMainColor := "blue" }
    country := none, location := none, tag := none }

/-- The joined row of the photo of `beachCatalog` tagged "beach-volleyball". -/
def beachTagRow : Row :=
  { photo := { ID := 2, PhotoTitle := "Match point" }
    file := { ID := 20, PhotoID := 2, FileMainColor := "yellow" }
    country := none, location := none, tag := some ⟨1, "beach-volleyball"⟩ }

/-- The joined row of the photo of `beachCatalog` that mentions no beach. -/
def forestRow : Row :=
  { photo := { ID := 3, PhotoTitle := "Forest walk" }
    file := { ID := 30, PhotoID := 3, FileMainColor := "green" }
    country := none, location := none, tag := some ⟨2, "trees"⟩ }

/-- The joined row of the photo of `capitalTagCatalog`. -/
def capitalTagRow : Row :=
  { photo := { ID := 1, PhotoTitle := "Holiday" }
    file := { ID := 10, PhotoID := 1, FileMainColor := "blue" }
    country := none, location := none, tag := some ⟨1, "Beach"⟩ }

/-! ## Float64 rounding -/

theorem roundHalfEven_cases (y : ℚ) :
    (roundHalfEven y = ⌊y⌋ ∧ y - ⌊y⌋ ≤ 1 / 2) ∨ (roundHalfEven y = ⌊y⌋ + 1 ∧ 1 / 2 ≤ y - ⌊y⌋) := by
  unfold roundHalfEven
  split_ifs with h1 h2 h3
  · exact Or.inl ⟨rfl, le_of_lt h1⟩
  · exact Or.inr ⟨rfl, le_of_lt h2⟩
  · exact Or.inl ⟨rfl, le_of_not_lt h2⟩
  · exact Or.inr ⟨rfl, le_of_not_lt h1⟩

theorem roundHalfEven_intCast (n : ℤ) : roundHalfEven (n : ℚ) = n := by
  unfold roundHalfEven
  simp

theorem roundHalfEven_mono {a b : ℚ} (h : a ≤ b) : roundHalfEven a ≤ roundHalfEven b := by
  have hf : ⌊a⌋ ≤ ⌊b⌋ := Int.floor_mono h
  by_cases hlt : ⌊a⌋ < ⌊b⌋
  · rcases roundHalfEven_cases a with ⟨ha, _⟩ | ⟨ha, _⟩ <;>
      rcases roundHalfEven_cases b with ⟨hb, _⟩ | ⟨hb, _⟩ <;> omega
  · have he : ⌊a⌋ = ⌊b⌋ := le_antisymm hf (not_lt.mp hlt)
    by_cases hab : a = b
    · rw [hab]
    · have hlt2 : a < b := lt_of_le_of_ne h hab
      rcases roundHalfEven_cases a with ⟨ha, ha2⟩ | ⟨ha, ha2⟩ <;>
        rcases roundHalfEven_cases b with ⟨hb, hb2⟩ | ⟨hb, hb2⟩
      · omega
      · omega
      · exfalso
        rw [he] at ha2
        linarith
      · omega

theorem roundHalfEven_of_abs_lt (y : ℚ) (n : ℤ) (h : |y - n| < 1 / 2) : roundHalfEven y = n := by
  rw [abs_lt] at h
  rcases roundHalfEven_cases y with ⟨hy, hy2⟩ | ⟨hy, hy2⟩
  · have hfl := Int.floor_le y
    have hlt := Int.lt_floor_add_one y
    rw [hy]
    have a1 : (⌊y⌋ : ℚ) < n + 1 := by linarith
    have a2 : (n : ℚ) - 1 < ⌊y⌋ := by linarith
    have b1 : ⌊y⌋ < n + 1 := by exact_mod_cast a1
    have b2 : n - 1 < ⌊y⌋ := by exact_mod_cast a2
    omega
  · have hfl := Int.floor_le y
    have hlt := Int.lt_floor_add_one y
    rw [hy]
    have a1 : (⌊y⌋ : ℚ) + 1 < n + 1 := by linarith
    have a2 : (n : ℚ) - 1 < ⌊y⌋ + 1 := by linarith
    have b1 : ⌊y⌋ + 1 < n + 1 := by exact_mod_cast a1
    have b2 : n - 1 < ⌊y⌋ + 1 := by exact_mod_cast a2
    omega

theorem roundHalfEven_zero : roundHalfEven 0 = 0 := by
  have := roundHalfEven_intCast 0
  simpa using this

theorem f64Ulp_pos (x : ℚ) : 0 < f64Ulp x := by
  unfold f64Ulp
  positivity

theorem roundHalfEven_nonneg {y : ℚ} (h : 0 ≤ y) : 0 ≤ roundHalfEven y := by
  have := roundHalfEven_mono h
  rwa [roundHalfEven_zero] at this

theorem roundPos_nonneg {x : ℚ} (h : 0 ≤ x) : 0 ≤ roundPos x := by
  unfold roundPos
  have h1 : 0 ≤ x / f64Ulp x := div_nonneg h (le_of_lt (f64Ulp_pos x))
  have h2 := roundHalfEven_nonneg h1
  have h3 : (0 : ℚ) ≤ (roundHalfEven (x / f64Ulp x) : ℚ) := by exact_mod_cast h2
  exact mul_nonneg h3 (le_of_lt (f64Ulp_pos x))

theorem f64Exp_ge (x : ℚ) : -1022 ≤ f64Exp x := le_max_right _ _

theorem log_le_f64Exp (x : ℚ) : Int.log 2 x ≤ f64Exp x := le_max_left _ _

theorem f64Exp_mono {x y : ℚ} (hx : 0 < x) (h : x ≤ y) : f64Exp x ≤ f64Exp y :=
  max_le_max (Int.log_mono_right hx h) (le_refl _)

theorem lt_two_zpow_f64Exp (x : ℚ) : x < (2 : ℚ) ^ (f64Exp x + 1) := by
  have h1 : x < ((2 : ℕ) : ℚ) ^ (Int.log 2 x + 1) := Int.lt_zpow_succ_log_self (by norm_num) x
  have h2 : ((2 : ℕ) : ℚ) ^ (Int.log 2 x + 1) ≤ (2 : ℚ) ^ (f64Exp x + 1) := by
    rw [Nat.cast_ofNat]
    exact zpow_le_zpow_right₀ (by norm_num) (by have := log_le_f64Exp x; omega)
  exact lt_of_lt_of_le h1 h2

theorem two_zpow_f64Exp_le {x : ℚ} (hx : 0 < x) (he : -1022 < f64Exp x) :
    (2 : ℚ) ^ f64Exp x ≤ x := by
  have hlog : f64Exp x = Int.log 2 x := by
    unfold f64Exp at he ⊢
    rcases max_cases (Int.log 2 x) (-1022) with ⟨h, _⟩ | ⟨h, _⟩
    · exact h
    · rw [h] at he
      exact absurd he (lt_irrefl _)
  rw [hlog]
  have := Int.zpow_log_le_self (b := 2) (r := x) (by norm_num) hx
  rwa [Nat.cast_ofNat] at this

theorem f64Exp_eq {x : ℚ} {e : ℤ} (hx : 0 < x) (he : -1022 ≤ e) (hlo : (2 : ℚ) ^ e ≤ x)
    (hhi : x < (2 : ℚ) ^ (e + 1)) : f64Exp x = e := by
  have h1 : e ≤ Int.log 2 x := by
    rw [← Int.zpow_le_iff_le_log (by norm_num) hx, Nat.cast_ofNat]
    exact hlo
  have h2 : Int.log 2 x < e + 1 := by
    rw [← Int.lt_zpow_iff_log_lt (by norm_num) hx, Nat.cast_ofNat]
    exact hhi
  unfold f64Exp
  rw [max_eq_left (by omega)]
  omega

theorem two_pow_mul_ulp (x : ℚ) (k : ℤ) :
    (2 : ℚ) ^ k * f64Ulp x = (2 : ℚ) ^ (k + (f64Exp x - 52)) := by
  unfold f64Ulp
  rw [← zpow_add₀ (by norm_num : (2 : ℚ) ≠ 0)]

/-- A rounded positive value does not leave the closure of its binade. -/
theorem roundPos_le_binade_top (x : ℚ) : roundPos x ≤ (2 : ℚ) ^ (f64Exp x + 1) := by
  unfold roundPos
  have hu := f64Ulp_pos x
  have e53 : (2 : ℚ) ^ (53 : ℤ) = ((9007199254740992 : ℤ) : ℚ) := by norm_num
  have h1 : x / f64Ulp x ≤ ((9007199254740992 : ℤ) : ℚ) := by
    rw [div_le_iff₀ hu, ← e53, two_pow_mul_ulp x 53,
      show (53 : ℤ) + (f64Exp x - 52) = f64Exp x + 1 by ring]
    exact le_of_lt (lt_two_zpow_f64Exp x)
  have h3 := roundHalfEven_mono h1
  rw [roundHalfEven_intCast] at h3
  have h4 : (roundHalfEven (x / f64Ulp x) : ℚ) ≤ (2 : ℚ) ^ (53 : ℤ) := by
    rw [e53]
    exact_mod_cast h3
  calc (roundHalfEven (x / f64Ulp x) : ℚ) * f64Ulp x ≤ (2 : ℚ) ^ (53 : ℤ) * f64Ulp x :=
        mul_le_mul_of_nonneg_right h4 (le_of_lt hu)
    _ = (2 : ℚ) ^ (f64Exp x + 1) := by
        rw [two_pow_mul_ulp]
        congr 1
        ring

theorem binade_bottom_le_roundPos {x : ℚ} (hx : 0 < x) (he : -1022 < f64Exp x) :
    (2 : ℚ) ^ f64Exp x ≤ roundPos x := by
  unfold roundPos
  have hu := f64Ulp_pos x
  have e52 : (2 : ℚ) ^ (52 : ℤ) = ((4503599627370496 : ℤ) : ℚ) := by norm_num
  have h1 : ((4503599627370496 : ℤ) : ℚ) ≤ x / f64Ulp x := by
    rw [le_div_iff₀ hu, ← e52, two_pow_mul_ulp x 52,
      show (52 : ℤ) + (f64Exp x - 52) = f64Exp x by ring]
    exact two_zpow_f64Exp_le hx he
  have h3 := roundHalfEven_mono h1
  rw [roundHalfEven_intCast] at h3
  have h4 : (2 : ℚ) ^ (52 : ℤ) ≤ (roundHalfEven (x / f64Ulp x) : ℚ) := by
    rw [e52]
    exact_mod_cast h3
  calc (2 : ℚ) ^ f64Exp x = (2 : ℚ) ^ (52 : ℤ) * f64Ulp x := by
        rw [two_pow_mul_ulp]
        congr 1
        ring
    _ ≤ (roundHalfEven (x / f64Ulp x) : ℚ) * f64Ulp x :=
        mul_le_mul_of_nonneg_right h4 (le_of_lt hu)

theorem roundPos_mono {x y : ℚ} (hx : 0 ≤ x) (h : x ≤ y) : roundPos x ≤ roundPos y := by
  rcases eq_or_lt_of_le hx with h0 | hpos
  · have hz : roundPos x = 0 := by
      rw [← h0]
      unfold roundPos
      rw [zero_div, roundHalfEven_zero]
      simp
    rw [hz]
    exact roundPos_nonneg (le_trans hx h)
  · have hy : 0 < y := lt_of_lt_of_le hpos h
    have hexp := f64Exp_mono hpos h
    rcases eq_or_lt_of_le hexp with heq | hlt
    · have hu : f64Ulp x = f64Ulp y := by
        unfold f64Ulp
        rw [heq]
      unfold roundPos
      rw [hu]
      have hd : x / f64Ulp y ≤ y / f64Ulp y :=
        div_le_div_of_nonneg_right h (le_of_lt (f64Ulp_pos y))
      have := roundHalfEven_mono hd
      have hc : (roundHalfEven (x / f64Ulp y) : ℚ) ≤ (roundHalfEven (y / f64Ulp y) : ℚ) := by
        exact_mod_cast this
      exact mul_le_mul_of_nonneg_right hc (le_of_lt (f64Ulp_pos y))
    · have h1 := roundPos_le_binade_top x
      have h2 := binade_bottom_le_roundPos hy (lt_of_le_of_lt (f64Exp_ge x) hlt)
      have h3 : (2 : ℚ) ^ (f64Exp x + 1) ≤ (2 : ℚ) ^ f64Exp y :=
        zpow_le_zpow_right₀ (by norm_num) (by omega)
      linarith

/-- Rounding to float64 is monotone. -/
theorem roundF64_mono {x y : ℚ} (h : x ≤ y) : roundF64 x ≤ roundF64 y := by
  unfold roundF64
  by_cases hx : 0 ≤ x
  · have hy : 0 ≤ y := le_trans hx h
    rw [if_pos hx, if_pos hy]
    exact roundPos_mono hx h
  · rw [if_neg hx]
    by_cases hy : 0 ≤ y
    · rw [if_pos hy]
      have h1 := roundPos_nonneg (x := -x) (by linarith)
      have h2 := roundPos_nonneg hy
      linarith
    · rw [if_neg hy]
      have := roundPos_mono (x := -y) (y := -x) (by linarith) (by linarith)
      linarith

/-- Evaluation of the rounding of a positive rational in a normal binade. -/
theorem roundF64_eval {x : ℚ} (e n : ℤ) (hx : 0 < x) (he : -1022 ≤ e)
    (hlo : (2 : ℚ) ^ e ≤ x) (hhi : x < (2 : ℚ) ^ (e + 1))
    (hn : |x / (2 : ℚ) ^ (e - 52) - n| < 1 / 2) : roundF64 x = n * (2 : ℚ) ^ (e - 52) := by
  unfold roundF64
  rw [if_pos (le_of_lt hx)]
  unfold roundPos f64Ulp
  rw [f64Exp_eq hx he hlo hhi, roundHalfEven_of_abs_lt _ n hn]

theorem roundF64_zero : roundF64 0 = 0 := by
  unfold roundF64 roundPos
  rw [if_pos (le_refl _), zero_div, roundHalfEven_zero]
  simp

theorem roundF64_nonneg {x : ℚ} (h : 0 ≤ x) : 0 ≤ roundF64 x := by
  have := roundF64_mono h
  rwa [roundF64_zero] at this

/-! ## Membership of the composed conditions -/

variable {lower : Char → Char}

theorem mem_textWheres (form : PhotoSearchForm) (p : Pred) :
    p ∈ textWheres lower form ↔
      (form.Location = true ∧ p = Pred.locationExists) ∨
      (form.Location = true ∧ form.Query ≠ "" ∧
        p = Pred.locNameLike (likeString lower form.Query)) ∨
      (form.Location = false ∧ form.Query ≠ "" ∧
        p = Pred.textLike (likeString lower form.Query) (likeString lower form.Query)
          (likeString lower form.Query)) := by
  unfold textWheres
  cases hl : form.Location <;> by_cases hq : form.Query = "" <;> simp [hq]

theorem mem_fieldWheres (form : PhotoSearchForm) (p : Pred) :
    p ∈ fieldWheres lower form ↔
      (form.Camera > 0 ∧ p = Pred.cameraEq form.Camera) ∨
      (form.Color ≠ "" ∧ p = Pred.colorEq form.Color) ∨
      (form.Favorites = true ∧ p = Pred.favorite) ∨
      (form.Country ≠ "" ∧ p = Pred.countryEq form.Country) ∨
      (form.Tags ≠ "" ∧ p = Pred.tagEq form.Tags) ∨
      (form.Title ≠ "" ∧ p = Pred.titleLike (likeString lower form.Title)) ∨
      (form.Description ≠ "" ∧
        p = Pred.descriptionLike (likeString lower form.Description)) ∨
      (form.Notes ≠ "" ∧ p = Pred.notesLike (likeString lower form.Notes)) ∨
      (form.Hash ≠ "" ∧ p = Pred.hashEq form.Hash) ∨
      (form.Duplicate = true ∧ p = Pred.duplicate) ∨
      (form.Portrait = true ∧ p = Pred.portrait) := by
  simp only [fieldWheres, List.mem_append, List.mem_ite_nil_right, List.mem_singleton, or_assoc]

theorem mem_chromaWheres (form : PhotoSearchForm) (p : Pred) :
    p ∈ chromaWheres form ↔
      (form.Mono = true ∧ p = Pred.chromaZero) ∨
      (form.Mono = false ∧ form.Chroma > 0 ∧ p = Pred.chromaGt form.Chroma) := by
  unfold chromaWheres
  cases hm : form.Mono <;> by_cases hc : form.Chroma > 0 <;> simp [hc]

theorem mem_apertureWheres (form : PhotoSearchForm) (p : Pred) :
    p ∈ apertureWheres form ↔
      (form.Fmin > 0 ∧ p = Pred.apertureGe form.Fmin) ∨
      (form.Fmax > 0 ∧ p = Pred.apertureLe form.Fmax) := by
  simp only [apertureWheres, List.mem_append, List.mem_ite_nil_right, List.mem_singleton]

theorem mem_geoWheres (form : PhotoSearchForm) (p : Pred) :
    p ∈ geoWheres form ↔
      (form.Lat > 0 ∧ p = Pred.latBetween (f64Sub form.Lat (halfWidth form))
        (f64Add form.Lat (halfWidth form))) ∨
      (form.Long > 0 ∧ p = Pred.longBetween (f64Sub form.Long (halfWidth form))
        (f64Add form.Long (halfWidth form))) := by
  simp only [geoWheres, List.mem_append, List.mem_ite_nil_right, List.mem_singleton]

theorem mem_dateWheres (form : PhotoSearchForm) (p : Pred) :
    p ∈ dateWheres form ↔
      (form.Before.IsZero = false ∧ p = Pred.takenAtLe form.Before.day) ∨
      (form.After.IsZero = false ∧ p = Pred.takenAtGe form.After.day) := by
  simp [dateWheres]

theorem mem_photosWheres (form : PhotoSearchForm) (p : Pred) :
    p ∈ photosWheres lower form ↔
      p = Pred.base ∨ p ∈ textWheres lower form ∨ p ∈ fieldWheres lower form ∨
      p ∈ chromaWheres form ∨ p ∈ apertureWheres form ∨ p ∈ geoWheres form ∨
      p ∈ dateWheres form := by
  simp only [photosWheres, List.mem_cons, List.mem_append, or_assoc]

theorem filter_eq_nil_of_forall {α : Type} (q : α → Bool) (l : List α)
    (h : ∀ a ∈ l, q a = false) : l.filter q = [] := by
  rw [List.filter_eq_nil_iff]
  intro a ha
  simp [h a ha]

theorem fieldWheres_not_queryText (form : PhotoSearchForm) :
    (fieldWheres lower form).filter Pred.isQueryText = [] := by
  apply filter_eq_nil_of_forall
  intro a ha
  rw [mem_fieldWheres] at ha
  rcases ha with ⟨_, rfl⟩ | ⟨_, rfl⟩ | ⟨_, rfl⟩ | ⟨_, rfl⟩ | ⟨_, rfl⟩ | ⟨_, rfl⟩ | ⟨_, rfl⟩ |
    ⟨_, rfl⟩ | ⟨_, rfl⟩ | ⟨_, rfl⟩ | ⟨_, rfl⟩ <;> rfl

theorem fieldWheres_not_chroma (form : PhotoSearchForm) :
    (fieldWheres lower form).filter Pred.isChroma = [] := by
  apply filter_eq_nil_of_forall
  intro a ha
  rw [mem_fieldWheres] at ha
  rcases ha with ⟨_, rfl⟩ | ⟨_, rfl⟩ | ⟨_, rfl⟩ | ⟨_, rfl⟩ | ⟨_, rfl⟩ | ⟨_, rfl⟩ | ⟨_, rfl⟩ |
    ⟨_, rfl⟩ | ⟨_, rfl⟩ | ⟨_, rfl⟩ | ⟨_, rfl⟩ <;> rfl

theorem chromaWheres_not_queryText (form : PhotoSearchForm) :
    (chromaWheres form).filter Pred.isQueryText = [] := by
  apply filter_eq_nil_of_forall
  intro a ha
  rw [mem_chromaWheres] at ha
  rcases ha with ⟨_, rfl⟩ | ⟨_, _, rfl⟩ <;> rfl

theorem chromaWheres_all_chroma (form : PhotoSearchForm) :
    (chromaWheres form).filter Pred.isChroma = chromaWheres form := by
  rw [List.filter_eq_self]
  intro a ha
  rw [mem_chromaWheres] at ha
  rcases ha with ⟨_, rfl⟩ | ⟨_, _, rfl⟩ <;> rfl

theorem textWheres_not_chroma (form : PhotoSearchForm) :
    (textWheres lower form).filter Pred.isChroma = [] := by
  apply filter_eq_nil_of_forall
  intro a ha
  rw [mem_textWheres] at ha
  rcases ha with ⟨_, rfl⟩ | ⟨_, _, rfl⟩ | ⟨_, _, rfl⟩ <;> rfl

theorem apertureWheres_not_queryText (form : PhotoSearchForm) :
    (apertureWheres form).filter Pred.isQueryText = [] := by
  apply filter_eq_nil_of_forall
  intro a ha
  rw [mem_apertureWheres] at ha
  rcases ha with ⟨_, rfl⟩ | ⟨_, rfl⟩ <;> rfl

theorem apertureWheres_not_chroma (form : PhotoSearchForm) :
    (apertureWheres form).filter Pred.isChroma = [] := by
  apply filter_eq_nil_of_forall
  intro a ha
  rw [mem_apertureWheres] at ha
  rcases ha with ⟨_, rfl⟩ | ⟨_, rfl⟩ <;> rfl

theorem geoWheres_not_queryText (form : PhotoSearchForm) :
    (geoWheres form).filter Pred.isQueryText = [] := by
  apply filter_eq_nil_of_forall
  intro a ha
  rw [mem_geoWheres] at ha
  rcases ha with ⟨_, rfl⟩ | ⟨_, rfl⟩ <;> rfl

theorem geoWheres_not_chroma (form : PhotoSearchForm) :
    (geoWheres form).filter Pred.isChroma = [] := by
  apply filter_eq_nil_of_forall
  intro a ha
  rw [mem_geoWheres] at ha
  rcases ha with ⟨_, rfl⟩ | ⟨_, rfl⟩ <;> rfl

theorem dateWheres_not_queryText (form : PhotoSearchForm) :
    (dateWheres form).filter Pred.isQueryText = [] := by
  apply filter_eq_nil_of_forall
  intro a ha
  rw [mem_dateWheres] at ha
  rcases ha with ⟨_, rfl⟩ | ⟨_, rfl⟩ <;> rfl

theorem dateWheres_not_chroma (form : PhotoSearchForm) :
    (dateWheres form).filter Pred.isChroma = [] := by
  apply filter_eq_nil_of_forall
  intro a ha
  rw [mem_dateWheres] at ha
  rcases ha with ⟨_, rfl⟩ | ⟨_, rfl⟩ <;> rfl

/-- The conditions binding the free-text query all come from the free-text
branch. -/
theorem photosWheres_filter_queryText (form : PhotoSearchForm) :
    (photosWheres lower form).filter Pred.isQueryText =
      (textWheres lower form).filter Pred.isQueryText := by
  simp [photosWheres, List.filter_append, fieldWheres_not_queryText, chromaWheres_not_queryText,
    apertureWheres_not_queryText, geoWheres_not_queryText, dateWheres_not_queryText,
    Pred.isQueryText]

/-- The chroma conditions all come from the chroma branch. -/
theorem photosWheres_filter_chroma (form : PhotoSearchForm) :
    (photosWheres lower form).filter Pred.isChroma = chromaWheres form := by
  simp [photosWheres, List.filter_append, fieldWheres_not_chroma, chromaWheres_all_chroma,
    apertureWheres_not_chroma, geoWheres_not_chroma, dateWheres_not_chroma,
    textWheres_not_chroma, Pred.isChroma]

/-! ## Radius and window -/

/-- C1: the effective radius is 20 when the radius is at most 0, 1000 when it
exceeds 1000, the input when it lies between 1 and 1000, and so always lies
between 1 and 1000. -/
theorem effectiveDist_normalised (form : PhotoSearchForm) :
    (form.Dist ≤ 0 → effectiveDist form = 20) ∧
    (form.Dist > 1000 → effectiveDist form = 1000) ∧
    (1 ≤ form.Dist ∧ form.Dist ≤ 1000 → effectiveDist form = form.Dist) ∧
    (1 ≤ effectiveDist form ∧ effectiveDist form ≤ 1000) := by
  unfold effectiveDist
  refine ⟨?_, ?_, ?_, ?_⟩
  · intro h
    simp [Nat.le_zero.mp h]
  · intro h
    have h0 : form.Dist ≠ 0 := by omega
    simp [h0, h]
  · intro h
    have h0 : form.Dist ≠ 0 := by omega
    have h1 : ¬ form.Dist > 1000 := by omega
    simp [h0, h1]
  · split_ifs <;> omega

/-- Witness of C1 at the radii 0, 5000 and 7. -/
theorem effectiveDist_normalised_witness :
    effectiveDist { Dist := 0 } = 20 ∧ effectiveDist { Dist := 5000 } = 1000 ∧
    effectiveDist { Dist := 7 } = 7 :=
  ⟨(effectiveDist_normalised { Dist := 0 }).1 (by decide),
   (effectiveDist_normalised { Dist := 5000 }).2.1 (by decide),
   (effectiveDist_normalised { Dist := 7 }).2.2.1 (by decide)⟩

/-- C2: a page size outside (0, 1000] gives limit 100 and offset 0; a page
size within it gives the requested page size and the requested offset. -/
theorem photosQuery_window (form : PhotoSearchForm) :
    (¬ (0 < form.Count ∧ form.Count ≤ 1000) →
      (photosQuery lower form).limit = 100 ∧ (photosQuery lower form).offset = 0) ∧
    (0 < form.Count ∧ form.Count ≤ 1000 →
      (photosQuery lower form).limit = form.Count ∧ (photosQuery lower form).offset = form.Offset) := by
  constructor
  · intro h
    simp [photosQuery, photosWindow, h]
  · intro h
    simp [photosQuery, photosWindow, h]

/-- Witness of C2 at page sizes 0, 1001 and 25. -/
theorem photosQuery_window_witness :
    ((photosQuery latin1Lower { Count := 0, Offset := 40 }).limit = 100 ∧
      (photosQuery latin1Lower { Count := 0, Offset := 40 }).offset = 0) ∧
    ((photosQuery latin1Lower { Count := 1001, Offset := 40 }).limit = 100 ∧
      (photosQuery latin1Lower { Count := 1001, Offset := 40 }).offset = 0) ∧
    ((photosQuery latin1Lower { Count := 25, Offset := 40 }).limit = 25 ∧
      (photosQuery latin1Lower { Count := 25, Offset := 40 }).offset = 40) :=
  ⟨(photosQuery_window { Count := 0, Offset := 40 }).1 (by decide),
   (photosQuery_window { Count := 1001, Offset := 40 }).1 (by decide),
   (photosQuery_window { Count := 25, Offset := 40 }).2 (by decide)⟩

/-! ## Free-text branch and chroma -/

/-- C3: in location mode the location-exists condition is composed, the
tag/title/colour condition never is, and with a non-empty query the only
condition binding the query is the lower-cased `LIKE` on the location display
name, with pattern `%` + lower-cased query + `%`. -/
theorem location_mode_excludes_text (form : PhotoSearchForm) (h : form.Location = true) :
    Pred.locationExists ∈ (photosQuery lower form).wheres ∧
    (∀ a b c, Pred.textLike a b c ∉ (photosQuery lower form).wheres) ∧
    (form.Query ≠ "" →
      (photosQuery lower form).wheres.filter Pred.isQueryText =
        [Pred.locNameLike ("%" ++ ToLower lower form.Query ++ "%")]) ∧
    (form.Query = "" → (photosQuery lower form).wheres.filter Pred.isQueryText = []) := by
  have hf : (photosQuery lower form).wheres.filter Pred.isQueryText =
      if form.Query ≠ "" then [Pred.locNameLike (likeString lower form.Query)] else [] := by
    show (photosWheres lower form).filter Pred.isQueryText = _
    rw [photosWheres_filter_queryText]
    unfold textWheres
    by_cases hq : form.Query = "" <;> simp [h, hq, Pred.isQueryText]
  refine ⟨?_, ?_, ?_, ?_⟩
  · show Pred.locationExists ∈ photosWheres lower form
    rw [mem_photosWheres, mem_textWheres]
    exact Or.inr (Or.inl (Or.inl ⟨h, rfl⟩))
  · intro a b c hmem
    have hin : Pred.textLike a b c ∈ (photosQuery lower form).wheres.filter Pred.isQueryText :=
      List.mem_filter.mpr ⟨hmem, rfl⟩
    rw [hf] at hin
    by_cases hq : form.Query = "" <;> simp [hq] at hin
  · intro hq
    rw [hf]
    simp [hq, likeString]
  · intro hq
    rw [hf]
    simp [hq]

/-- Witness of C3: location mode with the query "Berlin". -/
theorem location_mode_excludes_text_witness :
    (photosQuery latin1Lower { Location := true, Query := "Berlin" }).wheres =
      [Pred.base, Pred.locationExists, Pred.locNameLike "%berlin%"] ∧
    (∀ a b c, Pred.textLike a b c ∉
      (photosQuery latin1Lower { Location := true, Query := "Berlin" }).wheres) :=
  ⟨by decide, (location_mode_excludes_text { Location := true, Query := "Berlin" } rfl).2.1⟩

/-- C5: with the mono flag set the chroma conditions are exactly `chroma = 0`,
whatever the threshold; without it and with a positive threshold they are
exactly `chroma > threshold`. -/
theorem chroma_precedence (form : PhotoSearchForm) :
    (form.Mono = true →
      (photosQuery lower form).wheres.filter Pred.isChroma = [Pred.chromaZero]) ∧
    (form.Mono = false → form.Chroma > 0 →
      (photosQuery lower form).wheres.filter Pred.isChroma = [Pred.chromaGt form.Chroma]) := by
  have hf : (photosQuery lower form).wheres.filter Pred.isChroma = chromaWheres form :=
    photosWheres_filter_chroma form
  constructor
  · intro hm
    rw [hf]
    simp [chromaWheres, hm]
  · intro hm hc
    rw [hf]
    simp [chromaWheres, hm, hc]

/-- Witness of C5: mono with threshold 30, and threshold 30 alone. -/
theorem chroma_precedence_witness :
    (photosQuery latin1Lower { Mono := true, Chroma := 30 }).wheres.filter Pred.isChroma =
      [Pred.chromaZero] ∧
    (photosQuery latin1Lower { Mono := false, Chroma := 30 }).wheres.filter Pred.isChroma =
      [Pred.chromaGt 30] :=
  ⟨(chroma_precedence { Mono := true, Chroma := 30 }).1 rfl,
   (chroma_precedence { Mono := false, Chroma := 30 }).2 rfl (by decide)⟩

/-! ## Bounding box -/

theorem roundF64_neg_of_pos {x : ℚ} (hx : 0 < x) : roundF64 (-x) = -roundF64 x := by
  unfold roundF64
  rw [if_neg (by linarith), if_pos (le_of_lt hx), neg_neg]

theorem searchRadius_val : SearchRadius = 5188146770730811 / 576460752303423488 := by
  unfold SearchRadius
  rw [roundF64_eval (-7) 5188146770730811 (by norm_num) (by norm_num) (by norm_num)
    (by norm_num) (by rw [abs_lt]; constructor <;> norm_num)]
  norm_num

theorem float64_one : float64 1 = 1 := by
  unfold float64
  rw [roundF64_eval 0 4503599627370496 (by norm_num) (by norm_num) (by norm_num)
    (by norm_num) (by rw [abs_lt]; constructor <;> norm_num)]
  norm_num

theorem float64_twenty : float64 20 = 20 := by
  unfold float64
  rw [roundF64_eval 4 5629499534213120 (by norm_num) (by norm_num) (by norm_num)
    (by norm_num) (by rw [abs_lt]; constructor <;> norm_num)]
  norm_num

theorem float64_thousand : float64 1000 = 1000 := by
  unfold float64
  rw [roundF64_eval 9 8796093022208000 (by norm_num) (by norm_num) (by norm_num)
    (by norm_num) (by rw [abs_lt]; constructor <;> norm_num)]
  norm_num

/-- The half-width for the default radius 20: the float64 0.18. -/
theorem halfWidth_default (form : PhotoSearchForm) (h : form.Dist = 0) :
    halfWidth form = 3242591731706757 / 18014398509481984 := by
  have e : effectiveDist form = 20 := by simp [effectiveDist, h]
  unfold halfWidth f64Mul
  rw [e, float64_twenty, searchRadius_val,
    roundF64_eval (-3) 6485183463413514 (by norm_num) (by norm_num) (by norm_num)
      (by norm_num) (by rw [abs_lt]; constructor <;> norm_num)]
  norm_num

theorem latBetween_mem_iff (form : PhotoSearchForm) (a b : ℚ) :
    Pred.latBetween a b ∈ photosWheres lower form ↔
      form.Lat > 0 ∧ a = f64Sub form.Lat (halfWidth form) ∧
      b = f64Add form.Lat (halfWidth form) := by
  simp only [mem_photosWheres, mem_textWheres, mem_fieldWheres, mem_chromaWheres,
    mem_apertureWheres, mem_geoWheres, mem_dateWheres]
  simp

theorem longBetween_mem_iff (form : PhotoSearchForm) (a b : ℚ) :
    Pred.longBetween a b ∈ photosWheres lower form ↔
      form.Long > 0 ∧ a = f64Sub form.Long (halfWidth form) ∧
      b = f64Add form.Long (halfWidth form) := by
  simp only [mem_photosWheres, mem_textWheres, mem_fieldWheres, mem_chromaWheres,
    mem_apertureWheres, mem_geoWheres, mem_dateWheres]
  simp

/-- C6: at the centre latitude -33.87 and longitude 151.21 (Sydney), as
float64 values, the latitude is non-zero, yet only the longitude condition is
composed (with the float64 bounds 151.03 and 151.39000000000001): the guard
`form.Lat > 0` leaves a southern latitude without its bounding condition. -/
theorem southern_latitude_adds_no_condition :
    roundF64 (-3387 / 100) = -4766778730594959 / 140737488355328 ∧
    roundF64 (15121 / 100) = 5320228903552287 / 35184372088832 ∧
    ({ Lat := -4766778730594959 / 140737488355328,
       Long := 5320228903552287 / 35184372088832 } : PhotoSearchForm).Lat ≠ 0 ∧
    (photosQuery latin1Lower
      { Lat := -4766778730594959 / 140737488355328,
        Long := 5320228903552287 / 35184372088832 }).wheres =
      [Pred.base, Pred.longBetween (5313895716576297 / 35184372088832)
        (5326562090528277 / 35184372088832)] ∧
    (∀ a b, Pred.latBetween a b ∉
      (photosQuery latin1Lower
        { Lat := -4766778730594959 / 140737488355328,
          Long := 5320228903552287 / 35184372088832 }).wheres) := by
  have hlat : roundF64 (-3387 / 100) = -4766778730594959 / 140737488355328 := by
    rw [show (-3387 / 100 : ℚ) = -(3387 / 100) by norm_num,
      roundF64_neg_of_pos (by norm_num),
      roundF64_eval 5 4766778730594959 (by norm_num) (by norm_num) (by norm_num)
        (by norm_num) (by rw [abs_lt]; constructor <;> norm_num)]
    norm_num
  have hlong : roundF64 (15121 / 100) = 5320228903552287 / 35184372088832 := by
    rw [roundF64_eval 7 5320228903552287 (by norm_num) (by norm_num) (by norm_num)
      (by norm_num) (by rw [abs_lt]; constructor <;> norm_num)]
    norm_num
  have hh := halfWidth_default
    { Lat := -4766778730594959 / 140737488355328, Long := 5320228903552287 / 35184372088832 } rfl
  have hlo : f64Sub (5320228903552287 / 35184372088832)
      (3242591731706757 / 18014398509481984) = 5313895716576297 / 35184372088832 := by
    unfold f64Sub
    rw [roundF64_eval 7 5313895716576297 (by norm_num) (by norm_num) (by norm_num)
      (by norm_num) (by rw [abs_lt]; constructor <;> norm_num)]
    norm_num
  have hhi : f64Add (5320228903552287 / 35184372088832)
      (3242591731706757 / 18014398509481984) = 5326562090528277 / 35184372088832 := by
    unfold f64Add
    rw [roundF64_eval 7 5326562090528277 (by norm_num) (by norm_num) (by norm_num)
      (by norm_num) (by rw [abs_lt]; constructor <;> norm_num)]
    norm_num
  have hw : (photosQuery latin1Lower
      { Lat := -4766778730594959 / 140737488355328,
        Long := 5320228903552287 / 35184372088832 }).wheres =
      [Pred.base, Pred.longBetween (5313895716576297 / 35184372088832)
        (5326562090528277 / 35184372088832)] := by
    have hg : geoWheres
        { Lat := -4766778730594959 / 140737488355328,
          Long := 5320228903552287 / 35184372088832 } =
        [Pred.longBetween (5313895716576297 / 35184372088832)
          (5326562090528277 / 35184372088832)] := by
      unfold geoWheres
      rw [hh, hlo, hhi, if_neg (by norm_num), if_pos (by norm_num)]
      rfl
    show photosWheres latin1Lower _ = _
    unfold photosWheres
    rw [hg]
    rfl
  refine ⟨hlat, hlong, by norm_num, hw, ?_⟩
  intro a b hmem
  rw [hw] at hmem
  simp at hmem

/-- C8: a criteria field at its zero or empty value composes no condition of
its own, and the criteria with every field at its zero value composes the base
exclusions only. -/
theorem absent_fields_add_no_condition (form : PhotoSearchForm) :
    (form.Location = false → Pred.locationExists ∉ (photosQuery lower form).wheres) ∧
    (form.Query = "" → ∀ p ∈ (photosQuery lower form).wheres, p.isQueryText = false) ∧
    (form.Camera = 0 → ∀ id, Pred.cameraEq id ∉ (photosQuery lower form).wheres) ∧
    (form.Color = "" → ∀ s, Pred.colorEq s ∉ (photosQuery lower form).wheres) ∧
    (form.Favorites = false → Pred.favorite ∉ (photosQuery lower form).wheres) ∧
    (form.Country = "" → ∀ s, Pred.countryEq s ∉ (photosQuery lower form).wheres) ∧
    (form.Tags = "" → ∀ s, Pred.tagEq s ∉ (photosQuery lower form).wheres) ∧
    (form.Title = "" → ∀ s, Pred.titleLike s ∉ (photosQuery lower form).wheres) ∧
    (form.Description = "" → ∀ s, Pred.descriptionLike s ∉ (photosQuery lower form).wheres) ∧
    (form.Notes = "" → ∀ s, Pred.notesLike s ∉ (photosQuery lower form).wheres) ∧
    (form.Hash = "" → ∀ s, Pred.hashEq s ∉ (photosQuery lower form).wheres) ∧
    (form.Duplicate = false → Pred.duplicate ∉ (photosQuery lower form).wheres) ∧
    (form.Portrait = false → Pred.portrait ∉ (photosQuery lower form).wheres) ∧
    (form.Mono = false → Pred.chromaZero ∉ (photosQuery lower form).wheres) ∧
    (form.Chroma = 0 → ∀ n, Pred.chromaGt n ∉ (photosQuery lower form).wheres) ∧
    (form.Fmin = 0 → ∀ x, Pred.apertureGe x ∉ (photosQuery lower form).wheres) ∧
    (form.Fmax = 0 → ∀ x, Pred.apertureLe x ∉ (photosQuery lower form).wheres) ∧
    (form.Lat = 0 → ∀ a b, Pred.latBetween a b ∉ (photosQuery lower form).wheres) ∧
    (form.Long = 0 → ∀ a b, Pred.longBetween a b ∉ (photosQuery lower form).wheres) ∧
    (form.Before.IsZero = true → ∀ d, Pred.takenAtLe d ∉ (photosQuery lower form).wheres) ∧
    (form.After.IsZero = true → ∀ d, Pred.takenAtGe d ∉ (photosQuery lower form).wheres) ∧
    (photosQuery lower {}).wheres = [Pred.base] := by
  have hW : (photosQuery lower form).wheres = photosWheres lower form := rfl
  simp only [hW, mem_photosWheres, mem_textWheres, mem_fieldWheres, mem_chromaWheres,
    mem_apertureWheres, mem_geoWheres, mem_dateWheres]
  refine ⟨?_, ?_, ?_, ?_, ?_, ?_, ?_, ?_, ?_, ?_, ?_, ?_, ?_, ?_, ?_, ?_, ?_, ?_, ?_, ?_, ?_, ?_⟩
  · intro h; simp [h]
  · intro h p hp
    have hnil : (photosWheres lower form).filter Pred.isQueryText = [] := by
      rw [photosWheres_filter_queryText]
      unfold textWheres
      cases form.Location <;> simp [h, Pred.isQueryText]
    have hp2 : p ∈ photosWheres lower form := by
      rw [mem_photosWheres, mem_textWheres, mem_fieldWheres, mem_chromaWheres,
        mem_apertureWheres, mem_geoWheres, mem_dateWheres]
      exact hp
    have := List.filter_eq_nil_iff.mp hnil p hp2
    simpa using this
  · intro h; simp [h]
  · intro h; simp [h]
  · intro h; simp [h]
  · intro h; simp [h]
  · intro h; simp [h]
  · intro h; simp [h]
  · intro h; simp [h]
  · intro h; simp [h]
  · intro h; simp [h]
  · intro h; simp [h]
  · intro h; simp [h]
  · intro h; simp [h]
  · intro h; simp [h]
  · intro h; simp [h]
  · intro h; simp [h]
  · intro h; simp [h]
  · intro h; simp [h]
  · intro h; simp [h]
  · intro h; simp [h]
  · rfl

/-- Witness of C8: criteria with only a camera id compose no condition for any
of the fields left empty. -/
theorem absent_fields_add_no_condition_witness :
    (photosQuery latin1Lower { Camera := 3 }).wheres = [Pred.base, Pred.cameraEq 3] ∧
    Pred.locationExists ∉ (photosQuery latin1Lower { Camera := 3 }).wheres ∧
    (∀ s, Pred.tagEq s ∉ (photosQuery latin1Lower { Camera := 3 }).wheres) ∧
    (∀ a b, Pred.latBetween a b ∉ (photosQuery latin1Lower { Camera := 3 }).wheres) :=
  ⟨by decide,
   (absent_fields_add_no_condition { Camera := 3 }).1 rfl,
   (absent_fields_add_no_condition { Camera := 3 }).2.2.2.2.2.2.1 rfl,
   (absent_fields_add_no_condition { Camera := 3 }).2.2.2.2.2.2.2.2.2.2.2.2.2.2.2.2.2.1 rfl⟩

/-! ## The `LIKE` operator on patterns without metacharacters -/

theorem anySuffix_iff (f : List Char → Bool) (s : List Char) :
    anySuffix f s = true ↔ ∃ t, t <:+ s ∧ f t = true := by
  induction s with
  | nil =>
    simp [anySuffix]
  | cons c s ih =>
    simp only [anySuffix, Bool.or_eq_true, ih]
    constructor
    · rintro (h | ⟨t, ht, hf⟩)
      · exact ⟨c :: s, List.suffix_refl _, h⟩
      · exact ⟨t, ht.trans (List.suffix_cons c s), hf⟩
    · rintro ⟨t, ht, hf⟩
      rcases List.suffix_cons_iff.mp ht with rfl | ht
      · exact Or.inl hf
      · exact Or.inr ⟨t, ht, hf⟩

theorem likeMatch_cons (c : Char) (p s : List Char) :
    likeMatch (c :: p) s =
      if c = '%' then anySuffix (likeMatch p) s
      else if c = '_' then skipOne (likeMatch p) s
      else if c = '\\' then
        match p with
        | [] => matchHead c (likeMatch []) s
        | e :: q => matchHead e (likeMatch q) s
      else matchHead c (likeMatch p) s := by
  rw [likeMatch.eq_def]

theorem likeMatch_percent_cons (p s : List Char) :
    likeMatch ('%' :: p) s = anySuffix (likeMatch p) s := by
  rw [likeMatch_cons, if_pos rfl]

theorem likeMatch_literal_cons (c : Char) (hc : c ≠ '%' ∧ c ≠ '_' ∧ c ≠ '\\')
    (p s : List Char) : likeMatch (c :: p) s = matchHead c (likeMatch p) s := by
  rw [likeMatch_cons, if_neg hc.1, if_neg hc.2.1, if_neg hc.2.2]

theorem likeMatch_percent (s : List Char) : likeMatch ['%'] s = true := by
  rw [likeMatch_percent_cons, anySuffix_iff]
  exact ⟨[], List.nil_suffix, rfl⟩

theorem likeMatch_literals (l : List Char)
    (hl : ∀ c ∈ l, c ≠ '%' ∧ c ≠ '_' ∧ c ≠ '\\') (p s : List Char) :
    likeMatch (l ++ p) s = true ↔ ∃ t, s = l ++ t ∧ likeMatch p t = true := by
  induction l generalizing s with
  | nil => simp
  | cons c l ih =>
    have hc := hl c (List.mem_cons_self c l)
    have hl2 : ∀ d ∈ l, d ≠ '%' ∧ d ≠ '_' ∧ d ≠ '\\' :=
      fun d hd => hl d (List.mem_cons_of_mem c hd)
    rw [List.cons_append, likeMatch_literal_cons c hc]
    cases s with
    | nil => simp [matchHead]
    | cons d t =>
      simp only [matchHead, Bool.and_eq_true, ih hl2]
      constructor
      · rintro ⟨hcd, u, rfl, hu⟩
        have : c = d := by simpa using hcd
        subst this
        exact ⟨u, rfl, hu⟩
      · rintro ⟨u, hu, hm⟩
        simp only [List.cons_append, List.cons.injEq] at hu
        obtain ⟨rfl, rfl⟩ := hu
        exact ⟨by simp, u, rfl, hm⟩

/-- A pattern `%l%` whose `l` holds no metacharacter matches exactly the
subjects that contain `l`. -/
theorem likeMatch_substring (l : List Char)
    (hl : ∀ c ∈ l, c ≠ '%' ∧ c ≠ '_' ∧ c ≠ '\\') (s : List Char) :
    likeMatch ('%' :: (l ++ ['%'])) s = true ↔ l <:+: s := by
  rw [likeMatch_percent_cons, anySuffix_iff, List.infix_iff_prefix_suffix]
  constructor
  · rintro ⟨t, hts, hm⟩
    obtain ⟨u, rfl, _⟩ := (likeMatch_literals l hl ['%'] t).mp hm
    exact ⟨l ++ u, List.prefix_append l u, hts⟩
  · rintro ⟨t, ⟨u, rfl⟩, hts⟩
    exact ⟨l ++ u, hts, (likeMatch_literals l hl ['%'] (l ++ u)).mpr ⟨u, rfl, likeMatch_percent u⟩⟩

theorem likeString_data (q : String) :
    (likeString lower q).data = '%' :: ((ToLower lower q).data ++ ['%']) := by
  simp [likeString]

/-! ## The joined rows of the composed query -/

theorem mem_leftJoin_some {α : Type} (xs : List α) (a : α) :
    some a ∈ leftJoin xs ↔ a ∈ xs := by
  unfold leftJoin
  cases xs with
  | nil => simp
  | cons x xs => simp

theorem none_mem_leftJoin {α : Type} (xs : List α) :
    none ∈ leftJoin xs ↔ xs = [] := by
  unfold leftJoin
  cases xs with
  | nil => simp
  | cons x xs => simp

theorem joinClause_files (c : Catalog) :
    joinClause c
      "JOIN files ON files.photo_id = photos.id AND files.file_primary AND files.deleted_at IS NULL" =
    fun j => (c.files.filter fun f => f.PhotoID == j.photo.ID && f.FilePrimary && !f.Deleted).map
      fun f => { j with file := some f } := by
  funext j
  unfold joinClause
  rw [if_pos rfl]

theorem joinClause_cameras (c : Catalog) :
    joinClause c "JOIN cameras ON cameras.id = photos.camera_id" =
    fun j => (c.cameras.filter fun cam => cam.ID == j.photo.CameraID).map fun _ => j := by
  funext j
  unfold joinClause
  rw [if_neg (by decide), if_pos rfl]

theorem joinClause_lenses (c : Catalog) :
    joinClause c "JOIN lenses ON lenses.id = photos.lens_id" =
    fun j => (c.lenses.filter fun l => l.ID == j.photo.LensID).map fun _ => j := by
  funext j
  unfold joinClause
  rw [if_neg (by decide), if_neg (by decide), if_pos rfl]

theorem joinClause_countries (c : Catalog) :
    joinClause c "LEFT JOIN countries ON countries.id = photos.country_id" =
    fun j => (leftJoin (c.countries.filter fun co => co.ID == j.photo.CountryID)).map
      fun co => { j with country := co } := by
  funext j
  unfold joinClause
  rw [if_neg (by decide), if_neg (by decide), if_neg (by decide), if_pos rfl]

theorem joinClause_locations (c : Catalog) :
    joinClause c "LEFT JOIN locations ON locations.id = photos.location_id" =
    fun j => (leftJoin (c.locations.filter fun l => l.ID == j.photo.LocationID)).map
      fun loc => { j with location := loc } := by
  funext j
  unfold joinClause
  rw [if_neg (by decide), if_neg (by decide), if_neg (by decide), if_neg (by decide), if_pos rfl]

theorem joinClause_photoTags (c : Catalog) :
    joinClause c "LEFT JOIN photo_tags ON photo_tags.photo_id = photos.id" =
    fun j => (leftJoin (c.photoTags.filter fun pt => pt.PhotoID == j.photo.ID)).map
      fun pt => { j with photoTag := pt } := by
  funext j
  unfold joinClause
  rw [if_neg (by decide), if_neg (by decide), if_neg (by decide), if_neg (by decide),
    if_neg (by decide), if_pos rfl]

theorem joinClause_tags (c : Catalog) :
    joinClause c "LEFT JOIN tags ON photo_tags.tag_id = tags.id" =
    fun j => (joinTags c j.photoTag).map fun t => { j with tag := t } := by
  funext j
  unfold joinClause
  rw [if_neg (by decide), if_neg (by decide), if_neg (by decide), if_neg (by decide),
    if_neg (by decide), if_neg (by decide), if_pos rfl]

/-- The joined rows of the composed query: a photo of the catalog, a primary
file of it that is not soft-deleted, a camera and a lens of it, and the
outer-joined country, location and tag. -/
theorem mem_joinRows (c : Catalog) (form : PhotoSearchForm) (x : Row) :
    x ∈ joinRows c (photosQuery lower form) ↔
      x.photo ∈ c.photos ∧
      (x.file ∈ c.files ∧ x.file.PhotoID = x.photo.ID ∧ x.file.FilePrimary = true ∧
        x.file.Deleted = false) ∧
      (∃ cam ∈ c.cameras, cam.ID = x.photo.CameraID) ∧
      (∃ l ∈ c.lenses, l.ID = x.photo.LensID) ∧
      x.country ∈ leftJoin (c.countries.filter fun co => co.ID == x.photo.CountryID) ∧
      x.location ∈ leftJoin (c.locations.filter fun l => l.ID == x.photo.LocationID) ∧
      ∃ pt ∈ leftJoin (c.photoTags.filter fun pt => pt.PhotoID == x.photo.ID),
        x.tag ∈ joinTags c pt := by
  have hq : joinRows c (photosQuery lower form) =
      (joinAll c photosJoins).filterMap Joined.toRow := by
    unfold joinRows
    exact if_pos rfl
  obtain ⟨p, f, co, loc, t⟩ := x
  rw [hq]
  simp only [joinAll, photosJoins, List.foldl_cons, List.foldl_nil, joinClause_files,
    joinClause_cameras, joinClause_lenses, joinClause_countries, joinClause_locations,
    joinClause_photoTags, joinClause_tags, List.mem_filterMap, List.mem_flatMap,
    List.mem_filter, List.mem_map, Joined.toRow, Option.map_eq_some',
    Row.mk.injEq, Bool.and_eq_true, beq_iff_eq, Bool.not_eq_true', exists_prop]
  constructor
  · rintro ⟨j8, ⟨j7, ⟨j6, ⟨j5, ⟨j4, ⟨j3, ⟨j2, ⟨j1, ⟨p0, hp0, rfl⟩, f0, ⟨hf0, ⟨hfp, hprim⟩, hdel⟩,
      rfl⟩, cam, ⟨hcam, hcamid⟩, rfl⟩, l, ⟨hl, hlid⟩, rfl⟩, co0, hco, rfl⟩, loc0, hloc, rfl⟩,
      pt, hpt, rfl⟩, t0, ht, rfl⟩, f1, hfile, rfl, rfl, rfl, rfl, rfl⟩
    simp only [Option.some.injEq] at hfile
    subst hfile
    exact ⟨hp0, ⟨hf0, hfp, hprim, hdel⟩, ⟨cam, hcam, hcamid⟩, ⟨l, hl, hlid⟩, hco, hloc, pt, hpt,
      ht⟩
  · rintro ⟨hp, ⟨hf, hfp, hprim, hdel⟩, ⟨cam, hcam, hcamid⟩, ⟨l, hl, hlid⟩, hco, hloc, pt, hpt,
      ht⟩
    exact ⟨_, ⟨_, ⟨_, ⟨_, ⟨_, ⟨_, ⟨_, ⟨_, ⟨p, hp, rfl⟩, f, ⟨hf, ⟨hfp, hprim⟩, hdel⟩, rfl⟩,
      cam, ⟨hcam, hcamid⟩, rfl⟩, l, ⟨hl, hlid⟩, rfl⟩, co, hco, rfl⟩, loc, hloc, rfl⟩,
      pt, hpt, rfl⟩, t, ht, rfl⟩, f, rfl, rfl, rfl, rfl, rfl, rfl⟩

/-! ## Grouping and selection of the composed query -/

theorem mem_photoLabels (c : Catalog) (photoID : Nat) (l : String) :
    l ∈ photoLabels c photoID ↔
      ∃ pt ∈ c.photoTags, pt.PhotoID = photoID ∧ ∃ t ∈ c.tags, t.ID = pt.TagID ∧ t.TagLabel = l := by
  simp only [photoLabels, List.mem_flatMap, List.mem_filter, List.mem_map, beq_iff_eq]
  constructor
  · rintro ⟨pt, ⟨hpt, hid⟩, t, ⟨ht, htid⟩, rfl⟩
    exact ⟨pt, hpt, hid, t, ht, htid, rfl⟩
  · rintro ⟨pt, hpt, hid, t, ht, htid, rfl⟩
    exact ⟨pt, ⟨hpt, hid⟩, t, ⟨ht, htid⟩, rfl⟩

/-- The tag of a joined row is a tag associated with the photo of the row. -/
theorem tag_of_joinRows (c : Catalog) (form : PhotoSearchForm) (r : Row) (t : Tag)
    (hr : r ∈ joinRows c (photosQuery lower form)) (ht : r.tag = some t) :
    t.TagLabel ∈ photoLabels c r.photo.ID := by
  rw [mem_joinRows] at hr
  obtain ⟨_, _, _, _, _, _, pt, hpt, htag⟩ := hr
  rw [ht] at htag
  cases pt with
  | none => simp [joinTags] at htag
  | some pt =>
    rw [mem_leftJoin_some, List.mem_filter] at hpt
    have htag2 : some t ∈ leftJoin (c.tags.filter fun t2 => t2.ID == pt.TagID) := htag
    rw [mem_leftJoin_some, List.mem_filter] at htag2
    rw [mem_photoLabels]
    exact ⟨pt, hpt.1, by simpa using hpt.2, t, htag2.1, by simpa using htag2.2, rfl⟩

/-- Every tag associated with the photo of a joined row has a joined row of its
own, the same in every other part. -/
theorem joinRows_with_tag (c : Catalog) (form : PhotoSearchForm) (r : Row) (l : String)
    (hr : r ∈ joinRows c (photosQuery lower form)) (hl : l ∈ photoLabels c r.photo.ID) :
    ∃ t : Tag, t.TagLabel = l ∧
      ({ r with tag := some t } : Row) ∈ joinRows c (photosQuery lower form) := by
  rw [mem_photoLabels] at hl
  obtain ⟨pt, hpt, hid, t, ht, htid, rfl⟩ := hl
  refine ⟨t, rfl, ?_⟩
  rw [mem_joinRows] at hr ⊢
  obtain ⟨h1, h2, h3, h4, h5, h6, _⟩ := hr
  refine ⟨h1, h2, h3, h4, h5, h6, some pt, ?_, ?_⟩
  · rw [mem_leftJoin_some, List.mem_filter]
    exact ⟨hpt, by simp [hid]⟩
  · show some t ∈ leftJoin (c.tags.filter fun t2 => t2.ID == pt.TagID)
    rw [mem_leftJoin_some, List.mem_filter]
    exact ⟨ht, by simp [htid]⟩

/-- The composed query groups by photo and file identity: its groups are the
passing rows of each key. -/
theorem groupsOf_photosQuery (c : Catalog) (form : PhotoSearchForm) :
    groupsOf lower c (photosQuery lower form) =
      ((passingRows lower c (photosQuery lower form)).map Row.key).dedup.map
        fun k => groupRows lower c (photosQuery lower form) k := by
  unfold groupsOf
  exact if_pos rfl

/-- The select list of the composed query scans the identities and file flags
of the first row of a group and aggregates the tag labels of the whole group. -/
theorem groupResult_photosSelect (r : Row) (rs : List Row) :
    ∃ x, groupResult photosSelect (r :: rs) = some x ∧ x.ID = r.photo.ID ∧
      x.FileID = r.file.ID ∧ x.FilePrimary = r.file.FilePrimary ∧
      x.FileMissing = r.file.FileMissing ∧ x.Tags = groupConcat (r :: rs) :=
  ⟨_, rfl, rfl, rfl, rfl, rfl, rfl⟩

/-- A grouped result row comes from a passing joined row of its key, carries
that row's file flags, and aggregates the labels of the passing rows of its
key. -/
theorem mem_groupedResults (c : Catalog) (form : PhotoSearchForm) (r : PhotoSearchResult)
    (h : r ∈ groupedResults lower c (photosQuery lower form)) :
    ∃ x ∈ joinRows c (photosQuery lower form),
      passes lower (photosWheres lower form) x = true ∧ x.key = (r.ID, r.FileID) ∧
      r.FilePrimary = x.file.FilePrimary ∧ r.FileMissing = x.file.FileMissing ∧
      r.Tags = groupConcat (groupRows lower c (photosQuery lower form) (r.ID, r.FileID)) := by
  unfold groupedResults at h
  rw [groupsOf_photosQuery, List.mem_filterMap] at h
  obtain ⟨g, hg, hr⟩ := h
  rw [List.mem_map] at hg
  obtain ⟨k, _, rfl⟩ := hg
  cases hrows : groupRows lower c (photosQuery lower form) k with
  | nil =>
    rw [hrows] at hr
    simp [groupResult] at hr
  | cons x xs =>
    have hx : x ∈ groupRows lower c (photosQuery lower form) k := by
      rw [hrows]
      exact List.mem_cons_self x xs
    simp only [groupRows, passingRows, List.mem_filter, beq_iff_eq] at hx
    rw [hrows] at hr
    obtain ⟨y, hy, e1, e2, e3, e4, e5⟩ := groupResult_photosSelect x xs
    have hry : y = r := by
      have hsel : (photosQuery lower form).select = photosSelect := rfl
      rw [hsel, hy] at hr
      exact Option.some.inj hr
    subst hry
    have hkey : x.key = (y.ID, y.FileID) := by
      rw [e1, e2]
      rfl
    refine ⟨x, hx.1.1, hx.1.2, hkey, e3, e4, ?_⟩
    rw [e5, ← hrows, ← hkey, hx.2]

/-- The `Tags` field of a grouped result row is the comma-joined list of the
tag labels of the joined rows of its photo and file that pass the conditions,
`NULL` labels left out. -/
theorem groupedResults_tags (c : Catalog) (form : PhotoSearchForm) (r : PhotoSearchResult)
    (h : r ∈ groupedResults lower c (photosQuery lower form)) :
    r.Tags = String.intercalate ","
      (((joinRows c (photosQuery lower form)).filter fun x =>
          passes lower (photosWheres lower form) x && x.key == (r.ID, r.FileID)).filterMap
        fun x => x.tag.map fun t => t.TagLabel) := by
  obtain ⟨_, _, _, _, _, _, ht⟩ := mem_groupedResults c form r h
  have hrows : groupRows lower c (photosQuery lower form) (r.ID, r.FileID) =
      (joinRows c (photosQuery lower form)).filter fun x =>
        passes lower (photosWheres lower form) x && x.key == (r.ID, r.FileID) := by
    unfold groupRows passingRows
    rw [List.filter_filter]
    apply List.filter_congr
    intro x _
    exact Bool.and_comm _ _
  rw [ht, hrows]
  rfl

theorem applyOrders_perm (os : List OrderBy) (rs : List PhotoSearchResult) :
    (applyOrders os rs).Perm rs := by
  induction os with
  | nil => exact List.Perm.refl rs
  | cons o os ih => exact (List.perm_insertionSort _ _).trans ih

theorem mem_of_mem_runQuery (c : Catalog) (q : Query) (r : PhotoSearchResult)
    (h : r ∈ runQuery lower c q) : r ∈ groupedResults lower c q :=
  (applyOrders_perm _ _).subset
    (((List.take_sublist _ _).trans (List.drop_sublist _ _)).subset h)

/-- Every row `Search.Photos` returns comes from a joined row of its photo and
file on which every composed condition holds. -/
theorem mem_photosResults (c : Catalog) (form : PhotoSearchForm) (r : PhotoSearchResult)
    (h : r ∈ photosResults lower c form) :
    ∃ x ∈ joinRows c (photosQuery lower form),
      (∀ w ∈ photosWheres lower form, w.eval lower x = true) ∧ x.key = (r.ID, r.FileID) ∧
      r.FilePrimary = x.file.FilePrimary ∧ r.FileMissing = x.file.FileMissing ∧
      r.Tags = groupConcat (groupRows lower c (photosQuery lower form) (r.ID, r.FileID)) := by
  obtain ⟨x, hx, hp, rest⟩ := mem_groupedResults c form r (mem_of_mem_runQuery c _ r h)
  unfold passes at hp
  rw [List.all_eq_true] at hp
  exact ⟨x, hx, hp, rest⟩

/-! ## General text search -/

/-- The general text condition on a joined row, for a query without
metacharacters: the lower-cased query occurs in the tag label as stored, or in
the lower-cased title, or in the lower-cased colour. -/
theorem textLike_eval (q : String) (r : Row)
    (hmeta : ∀ ch ∈ (ToLower lower q).data, ch ≠ '%' ∧ ch ≠ '_' ∧ ch ≠ '\\') :
    (Pred.textLike (likeString lower q) (likeString lower q) (likeString lower q)).eval
        lower r = true ↔
      (∃ t, r.tag = some t ∧ (ToLower lower q).data <:+: t.TagLabel.data) ∨
      containsFold lower q r.photo.PhotoTitle = true ∨
      containsFold lower q r.file.FileMainColor = true := by
  simp only [Pred.eval, Bool.or_eq_true, containsFold, decide_eq_true_eq, likeString_data,
    likeMatch_substring _ hmeta]
  have htags : likeOpt (likeString lower q) (r.tag.map fun t => t.TagLabel) = true ↔
      ∃ t, r.tag = some t ∧ (ToLower lower q).data <:+: t.TagLabel.data := by
    cases ht : r.tag with
    | none => simp [likeOpt]
    | some t =>
      simp only [Option.map_some', likeOpt, likeString_data, likeMatch_substring _ hmeta,
        Option.some.injEq, exists_eq_left']
  rw [htags, or_assoc]

/-- C9: with the 'before' bound 2019-05-01 the composed upper bound is
`taken_at <= 2019-05-01`, and it fails on a photo taken at 10:00 on that very
day, while the lower bound of the same day holds on it. -/
theorem before_bound_excludes_same_day :
    (photosQuery latin1Lower { Before := { sec := 63692265600 } }).wheres =
      [Pred.base, Pred.takenAtLe 737179] ∧
    (photosQuery latin1Lower { After := { sec := 63692265600 } }).wheres =
      [Pred.base, Pred.takenAtGe 737179] ∧
    mayDayRow.photo.TakenAt.day = 737179 ∧
    (Pred.takenAtLe 737179).eval latin1Lower mayDayRow = false ∧
    (Pred.takenAtGe 737179).eval latin1Lower mayDayRow = true := by
  refine ⟨by decide, by decide, by decide, by decide, by decide⟩

/-! ## Tag aggregation -/

/-- C10 fails when a tag-label or free-text criterion is active: the photo of
`threeTagCatalog` carries the labels "beach", "sun" and "sea", and searched
without criteria its one row aggregates all three; yet searched by tag label
"beach" its row aggregates "beach" alone, and searched by free text "sun" it
aggregates "sun" alone. -/
theorem tag_criterion_truncates_tags :
    photoLabels threeTagCatalog 1 = ["beach", "sun", "sea"] ∧
    (photosQuery latin1Lower { Tags := "beach" }).wheres = [Pred.base, Pred.tagEq "beach"] ∧
    (photosQuery latin1Lower { Query := "sun" }).wheres =
      [Pred.base, Pred.textLike "%sun%" "%sun%" "%sun%"] ∧
    (photosQuery latin1Lower { Tags := "beach" }).group = "photos.id, files.id" ∧
    "GROUP_CONCAT(tags.tag_label) AS tags" ∈ (photosQuery latin1Lower { Tags := "beach" }).select ∧
    (photosResults latin1Lower threeTagCatalog {}).map (fun r => (r.ID, r.Tags)) =
      [(1, "beach,sun,sea")] ∧
    (photosResults latin1Lower threeTagCatalog { Tags := "beach" }).map (fun r => (r.ID, r.Tags)) =
      [(1, "beach")] ∧
    (photosResults latin1Lower threeTagCatalog { Query := "sun" }).map (fun r => (r.ID, r.Tags)) =
      [(1, "sun")] := by
  refine ⟨by decide, by decide, by decide, rfl, by decide, by decide, by decide, by decide⟩

/-! ## Order and window -/

/-- C11: exactly one order clause is composed: "newest" gives `taken_at DESC`,
"oldest" gives `taken_at`, "imported" gives `created_at DESC`, and every other
value, the empty string included, gives `taken_at DESC`. -/
theorem photosQuery_order (form : PhotoSearchForm) :
    (form.Order = "newest" → (photosQuery lower form).orders = [OrderBy.takenAtDesc]) ∧
    (form.Order = "oldest" → (photosQuery lower form).orders = [OrderBy.takenAtAsc]) ∧
    (form.Order = "imported" → (photosQuery lower form).orders = [OrderBy.createdAtDesc]) ∧
    (form.Order ≠ "newest" → form.Order ≠ "oldest" → form.Order ≠ "imported" →
      (photosQuery lower form).orders = [OrderBy.takenAtDesc]) ∧
    (photosQuery lower form).orders.length = 1 := by
  refine ⟨?_, ?_, ?_, ?_, rfl⟩
  · intro h
    simp [photosQuery, photosOrder, h]
  · intro h
    simp [photosQuery, photosOrder, h]
  · intro h
    simp [photosQuery, photosOrder, h]
  · intro h1 h2 h3
    simp [photosQuery, photosOrder, h1, h2, h3]

/-- Witness of C11 at the orders "newest", "oldest", "imported", "" and
"relevance". -/
theorem photosQuery_order_witness :
    (photosQuery latin1Lower { Order := "newest" }).orders = [OrderBy.takenAtDesc] ∧
    (photosQuery latin1Lower { Order := "oldest" }).orders = [OrderBy.takenAtAsc] ∧
    (photosQuery latin1Lower { Order := "imported" }).orders = [OrderBy.createdAtDesc] ∧
    (photosQuery latin1Lower { Order := "" }).orders = [OrderBy.takenAtDesc] ∧
    (photosQuery latin1Lower { Order := "relevance" }).orders = [OrderBy.takenAtDesc] :=
  ⟨(photosQuery_order { Order := "newest" }).1 rfl,
   (photosQuery_order { Order := "oldest" }).2.1 rfl,
   (photosQuery_order { Order := "imported" }).2.2.1 rfl,
   (photosQuery_order { Order := "" }).2.2.2.1 (by decide) (by decide) (by decide),
   (photosQuery_order { Order := "relevance" }).2.2.2.1 (by decide) (by decide) (by decide)⟩

/-- C12: criteria that differ only in page size and offset compose the same
table, select list, joins, grouping, conditions and order, hence the same
grouped matches and the same total count on every catalog; only the limit and
offset differ. -/
theorem window_independent_matches (form : PhotoSearchForm) (count offset : Int) :
    (photosQuery lower { form with Count := count, Offset := offset }).table =
      (photosQuery lower form).table ∧
    (photosQuery lower { form with Count := count, Offset := offset }).select =
      (photosQuery lower form).select ∧
    (photosQuery lower { form with Count := count, Offset := offset }).joins =
      (photosQuery lower form).joins ∧
    (photosQuery lower { form with Count := count, Offset := offset }).group =
      (photosQuery lower form).group ∧
    (photosQuery lower { form with Count := count, Offset := offset }).wheres =
      (photosQuery lower form).wheres ∧
    (photosQuery lower { form with Count := count, Offset := offset }).orders =
      (photosQuery lower form).orders ∧
    (∀ c : Catalog,
      groupedResults lower c (photosQuery lower { form with Count := count, Offset := offset }) =
        groupedResults lower c (photosQuery lower form) ∧
      foundRows lower c (photosQuery lower { form with Count := count, Offset := offset }) =
        foundRows lower c (photosQuery lower form)) ∧
    photosQuery lower { form with Count := count, Offset := offset } =
      { photosQuery lower form with
        limit := (photosWindow { form with Count := count, Offset := offset }).1
        offset := (photosWindow { form with Count := count, Offset := offset }).2 } := by
  have hw : (photosQuery lower { form with Count := count, Offset := offset }).wheres =
      (photosQuery lower form).wheres := rfl
  refine ⟨rfl, rfl, rfl, rfl, hw, rfl, ?_, rfl⟩
  intro c
  exact ⟨rfl, rfl⟩

/-- C17: the limit composed is always between 1 and 1000. -/
theorem photosQuery_limit_bounded (form : PhotoSearchForm) :
    1 ≤ (photosQuery lower form).limit ∧ (photosQuery lower form).limit ≤ 1000 := by
  show 1 ≤ (photosWindow form).1 ∧ (photosWindow form).1 ≤ 1000
  unfold photosWindow
  split_ifs with h
  · exact ⟨by have := h.1; simp only; omega, h.2⟩
  · exact ⟨by decide, by decide⟩

/-! ## Base exclusions -/

theorem eq_of_mem_of_nodup_map {α β : Type} (f : α → β) (l : List α)
    (h : (l.map f).Nodup) (a b : α) (ha : a ∈ l) (hb : b ∈ l) (hab : f a = f b) : a = b :=
  List.inj_on_of_nodup_map h ha hb hab

/-- C13: for every criteria the composed query joins the primary, not deleted
file of the photo and requires the photo not deleted and the file not missing;
every result row comes from a photo that is not deleted and a file of that
photo that is primary, not deleted and not missing; and on a catalog with
unique identifiers no result row carries the identifier of a deleted photo or
of a missing, deleted or non-primary file. -/
theorem base_exclusions_apply (form : PhotoSearchForm) :
    (photosQuery lower form).joins.head? = some
      "JOIN files ON files.photo_id = photos.id AND files.file_primary AND files.deleted_at IS NULL" ∧
    (photosQuery lower form).wheres.head? = some Pred.base ∧
    (∀ r : Row, Pred.base.eval lower r = true ↔
      r.photo.Deleted = false ∧ r.file.FileMissing = false) ∧
    (∀ (c : Catalog), ∀ r ∈ photosResults lower c form,
      (∃ p ∈ c.photos, p.ID = r.ID ∧ p.Deleted = false ∧
        ∃ f ∈ c.files, f.ID = r.FileID ∧ f.PhotoID = p.ID ∧ f.FilePrimary = true ∧
          f.Deleted = false ∧ f.FileMissing = false) ∧
      r.FilePrimary = true ∧ r.FileMissing = false) ∧
    (∀ (c : Catalog), c.keyed → ∀ r ∈ photosResults lower c form,
      (∀ p ∈ c.photos, p.ID = r.ID → p.Deleted = false) ∧
      (∀ f ∈ c.files, f.ID = r.FileID →
        f.FilePrimary = true ∧ f.Deleted = false ∧ f.FileMissing = false)) := by
  have hbase : Pred.base ∈ photosWheres lower form := by
    rw [mem_photosWheres]
    exact Or.inl rfl
  have hrow : ∀ (c : Catalog), ∀ r ∈ photosResults lower c form,
      ∃ x ∈ joinRows c (photosQuery lower form), x.key = (r.ID, r.FileID) ∧
        x.photo.Deleted = false ∧ x.file.FileMissing = false ∧
        r.FilePrimary = x.file.FilePrimary ∧ r.FileMissing = x.file.FileMissing := by
    intro c r hr
    obtain ⟨x, hx, hall, hkey, e1, e2, _⟩ := mem_photosResults c form r hr
    have hb : x.photo.Deleted = false ∧ x.file.FileMissing = false := by
      simpa [Pred.eval] using hall Pred.base hbase
    exact ⟨x, hx, hkey, hb.1, hb.2, e1, e2⟩
  refine ⟨rfl, rfl, ?_, ?_, ?_⟩
  · intro r
    simp [Pred.eval]
  · intro c r hr
    obtain ⟨x, hx, hkey, hdel, hmiss, e1, e2⟩ := hrow c r hr
    rw [mem_joinRows] at hx
    obtain ⟨hp, ⟨hf, hfp, hprim, hfdel⟩, _⟩ := hx
    simp only [Row.key, Prod.mk.injEq] at hkey
    exact ⟨⟨x.photo, hp, hkey.1, hdel, x.file, hf, hkey.2, hfp, hprim, hfdel, hmiss⟩,
      e1.trans hprim, e2.trans hmiss⟩
  · intro c hk r hr
    obtain ⟨x, hx, hkey, hdel, hmiss, _, _⟩ := hrow c r hr
    rw [mem_joinRows] at hx
    obtain ⟨hp, ⟨hf, hfp, hprim, hfdel⟩, _⟩ := hx
    simp only [Row.key, Prod.mk.injEq] at hkey
    constructor
    · intro p hpm hpid
      have : p = x.photo :=
        eq_of_mem_of_nodup_map _ _ hk.1 p x.photo hpm hp (hpid.trans hkey.1.symm)
      rw [this]
      exact hdel
    · intro f hfm hfid
      have : f = x.file :=
        eq_of_mem_of_nodup_map _ _ hk.2.1 f x.file hfm hf (hfid.trans hkey.2.symm)
      rw [this]
      exact ⟨hprim, hfdel, hmiss⟩

/-- Witness of C13: a catalog with a deleted photo, a photo whose file is
missing and a sound photo returns the sound photo alone. -/
theorem base_exclusions_apply_witness :
    exclusionCatalog.keyed ∧
    (photosResults latin1Lower exclusionCatalog {}).map (fun r => r.ID) = [3] ∧
    ∀ r ∈ photosResults latin1Lower exclusionCatalog {},
      (∀ p ∈ exclusionCatalog.photos, p.ID = r.ID → p.Deleted = false) ∧
      (∀ f ∈ exclusionCatalog.files, f.ID = r.FileID →
        f.FilePrimary = true ∧ f.Deleted = false ∧ f.FileMissing = false) :=
  ⟨by decide, by decide, (base_exclusions_apply {}).2.2.2.2 exclusionCatalog (by decide)⟩

/-! ## Independent field conditions -/

/-- C14, as the code has it: whatever the other fields are, each field
condition is composed exactly when its field is set: a non-empty string
(colour, country, tag label, title, description, notes, hash), a set flag
(favourites, duplicate, portrait), or a strictly positive number (camera id,
aperture minimum, aperture maximum); and it binds that field's value. -/
theorem field_conditions_independent (form : PhotoSearchForm) :
    (∀ id, Pred.cameraEq id ∈ (photosQuery lower form).wheres ↔ form.Camera > 0 ∧ id = form.Camera) ∧
    (∀ s, Pred.colorEq s ∈ (photosQuery lower form).wheres ↔ form.Color ≠ "" ∧ s = form.Color) ∧
    (Pred.favorite ∈ (photosQuery lower form).wheres ↔ form.Favorites = true) ∧
    (∀ s, Pred.countryEq s ∈ (photosQuery lower form).wheres ↔
      form.Country ≠ "" ∧ s = form.Country) ∧
    (∀ s, Pred.tagEq s ∈ (photosQuery lower form).wheres ↔ form.Tags ≠ "" ∧ s = form.Tags) ∧
    (∀ s, Pred.titleLike s ∈ (photosQuery lower form).wheres ↔
      form.Title ≠ "" ∧ s = "%" ++ ToLower lower form.Title ++ "%") ∧
    (∀ s, Pred.descriptionLike s ∈ (photosQuery lower form).wheres ↔
      form.Description ≠ "" ∧ s = "%" ++ ToLower lower form.Description ++ "%") ∧
    (∀ s, Pred.notesLike s ∈ (photosQuery lower form).wheres ↔
      form.Notes ≠ "" ∧ s = "%" ++ ToLower lower form.Notes ++ "%") ∧
    (∀ s, Pred.hashEq s ∈ (photosQuery lower form).wheres ↔ form.Hash ≠ "" ∧ s = form.Hash) ∧
    (Pred.duplicate ∈ (photosQuery lower form).wheres ↔ form.Duplicate = true) ∧
    (Pred.portrait ∈ (photosQuery lower form).wheres ↔ form.Portrait = true) ∧
    (∀ x, Pred.apertureGe x ∈ (photosQuery lower form).wheres ↔ form.Fmin > 0 ∧ x = form.Fmin) ∧
    (∀ x, Pred.apertureLe x ∈ (photosQuery lower form).wheres ↔ form.Fmax > 0 ∧ x = form.Fmax) := by
  have hW : (photosQuery lower form).wheres = photosWheres lower form := rfl
  simp only [hW, mem_photosWheres, mem_textWheres, mem_fieldWheres, mem_chromaWheres,
    mem_apertureWheres, mem_geoWheres, mem_dateWheres, likeString]
  refine ⟨?_, ?_, ?_, ?_, ?_, ?_, ?_, ?_, ?_, ?_, ?_, ?_, ?_⟩ <;> simp

/-- Witness of C14: criteria with a camera id, a title and an aperture minimum,
among other fields. -/
theorem field_conditions_independent_witness :
    Pred.cameraEq 3 ∈
      (photosQuery latin1Lower { Camera := 3, Title := "Dune", Fmin := 2, Query := "sea" }).wheres ∧
    Pred.titleLike "%dune%" ∈
      (photosQuery latin1Lower { Camera := 3, Title := "Dune", Fmin := 2, Query := "sea" }).wheres ∧
    Pred.apertureGe 2 ∈
      (photosQuery latin1Lower { Camera := 3, Title := "Dune", Fmin := 2, Query := "sea" }).wheres ∧
    Pred.favorite ∉
      (photosQuery latin1Lower { Camera := 3, Title := "Dune", Fmin := 2, Query := "sea" }).wheres :=
  ⟨((field_conditions_independent _).1 3).mpr ⟨by decide, rfl⟩,
   ((field_conditions_independent _).2.2.2.2.2.1 "%dune%").mpr ⟨by decide, by decide⟩,
   ((field_conditions_independent _).2.2.2.2.2.2.2.2.2.2.2.1 2).mpr ⟨by norm_num, rfl⟩,
   fun h => absurd ((field_conditions_independent _).2.2.1.mp h) (by decide)⟩

/-- C14 fails for negative numbers: the camera id -1 and the aperture bounds -2
are non-zero, yet no condition is composed for them. -/
theorem negative_fields_add_no_condition :
    ({ Camera := -1, Fmin := -2, Fmax := -2 } : PhotoSearchForm).Camera ≠ 0 ∧
    ({ Camera := -1, Fmin := -2, Fmax := -2 } : PhotoSearchForm).Fmin ≠ 0 ∧
    ({ Camera := -1, Fmin := -2, Fmax := -2 } : PhotoSearchForm).Fmax ≠ 0 ∧
    (photosQuery latin1Lower { Camera := -1, Fmin := -2, Fmax := -2 }).wheres = [Pred.base] := by
  refine ⟨by decide, by norm_num, by norm_num, ?_⟩
  simp [photosQuery, photosWheres, textWheres, fieldWheres, chromaWheres, apertureWheres,
    geoWheres, dateWheres, Time.IsZero]

/-! ## Criteria errors -/

/-- C15: when parsing the criteria fails, `Search.Photos` returns that error
with an empty result sequence and hands no query to the store. -/
theorem parse_error_surfaces_first (parse : PhotoSearchForm → Except Error PhotoSearchForm)
    (scan : Query → List PhotoSearchResult × Option Error) (form : PhotoSearchForm)
    (err : Error) (h : parse form = .error err) :
    (Search.Photos lower parse scan form).results = [] ∧
    (Search.Photos lower parse scan form).err = some err ∧
    (Search.Photos lower parse scan form).scanned = [] := by
  simp [Search.Photos, h]

/-- Witness of C15: a parser that rejects the query string "dist:far", over the
store of the three-tag catalog. -/
theorem parse_error_surfaces_first_witness :
    rejectBadDist { Query := "dist:far" } =
      .error ⟨"invalid syntax"⟩ ∧
    (Search.Photos latin1Lower rejectBadDist (fun q => (runQuery latin1Lower threeTagCatalog q, none))
      { Query := "dist:far" }).results = [] ∧
    (Search.Photos latin1Lower rejectBadDist (fun q => (runQuery latin1Lower threeTagCatalog q, none))
      { Query := "dist:far" }).err =
      some ⟨"invalid syntax"⟩ ∧
    (Search.Photos latin1Lower rejectBadDist (fun q => (runQuery latin1Lower threeTagCatalog q, none))
      { Query := "dist:far" }).scanned = [] :=
  ⟨rfl, parse_error_surfaces_first rejectBadDist _ { Query := "dist:far" } _ rfl⟩

/-- With criteria that parse and a store that answers, `Search.Photos` returns
the rows of the composed query and hands that one query to the store. -/
theorem photos_of_parsed (c : Catalog) (form : PhotoSearchForm) :
    (Search.Photos lower Except.ok (fun q => (runQuery lower c q, none)) form).results =
      photosResults lower c form ∧
    (Search.Photos lower Except.ok (fun q => (runQuery lower c q, none)) form).err = none ∧
    (Search.Photos lower Except.ok (fun q => (runQuery lower c q, none)) form).scanned =
      [photosQuery lower form] := by
  simp [Search.Photos, photosResults]

/-! ## Point lookups -/

theorem leastBy_eq_none {α : Type} (key : α → Nat) (l : List α) :
    leastBy key l = none ↔ l = [] := by
  cases l with
  | nil => simp [leastBy]
  | cons a l =>
    simp only [leastBy]
    cases leastBy key l with
    | none => simp
    | some b => by_cases h : key a ≤ key b <;> simp [h]

theorem leastBy_some {α : Type} (key : α → Nat) (l : List α) (r : α)
    (h : leastBy key l = some r) : r ∈ l ∧ ∀ a ∈ l, key r ≤ key a := by
  induction l generalizing r with
  | nil => simp [leastBy] at h
  | cons a l ih =>
    simp only [leastBy] at h
    cases hl : leastBy key l with
    | none =>
      rw [hl] at h
      simp only [Option.some.injEq] at h
      subst h
      rw [(leastBy_eq_none key l).mp hl]
      simp
    | some b =>
      rw [hl] at h
      obtain ⟨hb, hmin⟩ := ih b hl
      by_cases hab : key a ≤ key b
      · simp only [hab, if_true, Option.some.injEq] at h
        subst h
        refine ⟨List.mem_cons_self _ _, ?_⟩
        intro x hx
        rcases List.mem_cons.mp hx with rfl | hx
        · exact le_refl _
        · exact le_trans hab (hmin x hx)
      · simp only [hab, if_false, Option.some.injEq] at h
        subst h
        refine ⟨List.mem_cons_of_mem _ hb, ?_⟩
        intro x hx
        rcases List.mem_cons.mp hx with rfl | hx
        · omega
        · exact hmin x hx

theorem returnFound_eq {α : Type} (answer : α × Option Error) : returnFound answer = answer := by
  obtain ⟨r, e⟩ := answer
  cases e <;> rfl

/-- The store's `First`: an error, `ErrRecordNotFound`, exactly when no row
that is not soft-deleted matches; otherwise the matching row that is not
soft-deleted and comes first by key. -/
theorem dbFirst_spec {α : Type} (zero : α) (key : α → Nat) (deleted : α → Bool)
    (rows : List α) (cond : α → Bool) :
    ((dbFirst zero key deleted rows cond).2 ≠ none ↔
      ∀ a ∈ rows, deleted a = false → cond a = false) ∧
    ((dbFirst zero key deleted rows cond).2 ≠ none →
      dbFirst zero key deleted rows cond = (zero, some ErrRecordNotFound)) ∧
    ((∃ a ∈ rows, deleted a = false ∧ cond a = true) →
      (dbFirst zero key deleted rows cond).2 = none ∧
      (dbFirst zero key deleted rows cond).1 ∈ rows ∧
      deleted (dbFirst zero key deleted rows cond).1 = false ∧
      cond (dbFirst zero key deleted rows cond).1 = true ∧
      ∀ a ∈ rows, deleted a = false → cond a = true →
        key (dbFirst zero key deleted rows cond).1 ≤ key a) := by
  unfold dbFirst
  cases hl : leastBy key (rows.filter fun r => !deleted r && cond r) with
  | none =>
    have hnil := (leastBy_eq_none key _).mp hl
    rw [List.filter_eq_nil_iff] at hnil
    have hno : ∀ a ∈ rows, deleted a = false → cond a = false := by
      intro a ha hd
      have := hnil a ha
      simpa [hd] using this
    refine ⟨?_, ?_, ?_⟩
    · simp only [ne_eq, reduceCtorEq, not_false_eq_true, true_iff]
      exact hno
    · intro _
      rfl
    · rintro ⟨a, ha, hd, hc⟩
      rw [hno a ha hd] at hc
      exact absurd hc (by decide)
  | some r =>
    obtain ⟨hr, hmin⟩ := leastBy_some key _ r hl
    rw [List.mem_filter] at hr
    have hr2 : deleted r = false ∧ cond r = true := by simpa using hr.2
    refine ⟨?_, ?_, ?_⟩
    · simp only [ne_eq, not_true_eq_false, false_iff, not_forall]
      exact ⟨r, hr.1, hr2.1, by simp [hr2.2]⟩
    · intro h
      exact absurd rfl h
    · intro _
      exact ⟨rfl, hr.1, hr2.1, hr2.2,
        fun a ha hd hc => hmin a (List.mem_filter.mpr ⟨ha, by simp [hd, hc]⟩)⟩

theorem findFileByID_eq (c : Catalog) (id : String) :
    (Search.FindFileByID c id).2 =
      (dbFirst File.zero (fun f => f.ID) (fun f => f.Deleted) c.files
        (fun f => idIs id f.ID)).2 ∧
    (Search.FindFileByID c id).1.file =
      (dbFirst File.zero (fun f => f.ID) (fun f => f.Deleted) c.files
        (fun f => idIs id f.ID)).1 := by
  unfold Search.FindFileByID
  rw [returnFound_eq]
  rcases dbFirst File.zero (fun f => f.ID) (fun f => f.Deleted) c.files
    (fun f => idIs id f.ID) with ⟨f, _ | e⟩ <;> exact ⟨rfl, rfl⟩

theorem findFileByHash_eq (c : Catalog) (fileHash : String) :
    (Search.FindFileByHash c fileHash).2 =
      (dbFirst File.zero (fun f => f.ID) (fun f => f.Deleted) c.files
        (fun f => f.FileHash == fileHash)).2 ∧
    (Search.FindFileByHash c fileHash).1.file =
      (dbFirst File.zero (fun f => f.ID) (fun f => f.Deleted) c.files
        (fun f => f.FileHash == fileHash)).1 := by
  unfold Search.FindFileByHash
  rw [returnFound_eq]
  rcases dbFirst File.zero (fun f => f.ID) (fun f => f.Deleted) c.files
    (fun f => f.FileHash == fileHash) with ⟨f, _ | e⟩ <;> exact ⟨rfl, rfl⟩

/-- C16, as the code has it: each point lookup returns an error,
`ErrRecordNotFound`, exactly when the catalog holds no record with the
identifier or hash that is not soft-deleted, and otherwise the matching record
that is not soft-deleted and comes first, with no error; the answer of the
store, record and error, is returned unchanged. -/
theorem point_lookups (c : Catalog) :
    (∀ id : String,
      ((Search.FindFileByID c id).2 ≠ none ↔
        ∀ f ∈ c.files, f.Deleted = false → idIs id f.ID = false) ∧
      ((Search.FindFileByID c id).2 ≠ none →
        (Search.FindFileByID c id).2 = some ErrRecordNotFound) ∧
      ((∃ f ∈ c.files, f.Deleted = false ∧ idIs id f.ID = true) →
        (Search.FindFileByID c id).2 = none ∧
        (Search.FindFileByID c id).1.file ∈ c.files ∧
        (Search.FindFileByID c id).1.file.Deleted = false ∧
        idIs id (Search.FindFileByID c id).1.file.ID = true ∧
        ∀ g ∈ c.files, g.Deleted = false → idIs id g.ID = true →
          (Search.FindFileByID c id).1.file.ID ≤ g.ID)) ∧
    (∀ fileHash : String,
      ((Search.FindFileByHash c fileHash).2 ≠ none ↔
        ∀ f ∈ c.files, f.Deleted = false → f.FileHash ≠ fileHash) ∧
      ((Search.FindFileByHash c fileHash).2 ≠ none →
        (Search.FindFileByHash c fileHash).2 = some ErrRecordNotFound) ∧
      ((∃ f ∈ c.files, f.Deleted = false ∧ f.FileHash = fileHash) →
        (Search.FindFileByHash c fileHash).2 = none ∧
        (Search.FindFileByHash c fileHash).1.file ∈ c.files ∧
        (Search.FindFileByHash c fileHash).1.file.Deleted = false ∧
        (Search.FindFileByHash c fileHash).1.file.FileHash = fileHash ∧
        ∀ g ∈ c.files, g.Deleted = false → g.FileHash = fileHash →
          (Search.FindFileByHash c fileHash).1.file.ID ≤ g.ID)) ∧
    (∀ photoID : Nat,
      ((Search.FindPhotoByID c photoID).2 ≠ none ↔
        ∀ p ∈ c.photos, p.Deleted = false → p.ID ≠ photoID) ∧
      ((Search.FindPhotoByID c photoID).2 ≠ none →
        (Search.FindPhotoByID c photoID).2 = some ErrRecordNotFound) ∧
      ((∃ p ∈ c.photos, p.Deleted = false ∧ p.ID = photoID) →
        (Search.FindPhotoByID c photoID).2 = none ∧
        (Search.FindPhotoByID c photoID).1 ∈ c.photos ∧
        (Search.FindPhotoByID c photoID).1.Deleted = false ∧
        (Search.FindPhotoByID c photoID).1.ID = photoID)) ∧
    (∀ answer : FoundFile × Option Error, returnFound answer = answer) ∧
    (∀ answer : Photo × Option Error, returnFound answer = answer) := by
  refine ⟨?_, ?_, ?_, returnFound_eq, returnFound_eq⟩
  · intro id
    obtain ⟨e2, e1⟩ := findFileByID_eq c id
    obtain ⟨h1, h2, h3⟩ := dbFirst_spec File.zero (fun f => f.ID) (fun f => f.Deleted) c.files
      (fun f => idIs id f.ID)
    rw [e2, e1]
    refine ⟨h1, ?_, h3⟩
    intro h
    rw [h2 h]
  · intro fileHash
    obtain ⟨e2, e1⟩ := findFileByHash_eq c fileHash
    obtain ⟨h1, h2, h3⟩ := dbFirst_spec File.zero (fun f => f.ID) (fun f => f.Deleted) c.files
      (fun f => f.FileHash == fileHash)
    rw [e2, e1]
    refine ⟨?_, ?_, ?_⟩
    · simpa using h1
    · intro h
      rw [h2 h]
    · simpa using h3
  · intro photoID
    obtain ⟨h1, h2, h3⟩ := dbFirst_spec Photo.zero (fun p => p.ID) (fun p => p.Deleted) c.photos
      (fun p => p.ID == photoID)
    unfold Search.FindPhotoByID
    rw [returnFound_eq]
    refine ⟨?_, ?_, ?_⟩
    · simpa using h1
    · intro h
      rw [h2 h]
    · intro h
      have := h3 (by simpa using h)
      exact ⟨this.1, this.2.1, this.2.2.1, by simpa using this.2.2.2.1⟩

/-- Witness of C16: on the exclusion catalog the file 30 and the photo 3 are
found, the file "31" and the photo 9 are not. -/
theorem point_lookups_witness :
    (Search.FindFileByID exclusionCatalog "30").2 = none ∧
    (Search.FindFileByID exclusionCatalog "30").1.file.ID = 30 ∧
    (Search.FindFileByID exclusionCatalog "31").2 = some ErrRecordNotFound ∧
    (Search.FindPhotoByID exclusionCatalog 3).2 = none ∧
    (Search.FindPhotoByID exclusionCatalog 9).2 = some ErrRecordNotFound :=
  ⟨(((point_lookups exclusionCatalog).1 "30").2.2 (by decide)).1,
   by decide,
   ((point_lookups exclusionCatalog).1 "31").2.1 (by decide),
   (((point_lookups exclusionCatalog).2.2.1 3).2.2 (by decide)).1,
   ((point_lookups exclusionCatalog).2.2.1 9).2.1 (by decide)⟩

/-- C16 fails for soft-deleted records: the exclusion catalog holds the file
40, with hash "d4", and the photo 1, both soft-deleted, and the lookups of the
file by identifier, of the file by hash and of the photo return
`ErrRecordNotFound`. -/
theorem soft_deleted_record_is_not_found :
    (∃ f ∈ exclusionCatalog.files, idIs "40" f.ID = true) ∧
    (Search.FindFileByID exclusionCatalog "40").2 = some ErrRecordNotFound ∧
    (∃ f ∈ exclusionCatalog.files, f.FileHash = "d4") ∧
    (Search.FindFileByHash exclusionCatalog "d4").2 = some ErrRecordNotFound ∧
    (∃ p ∈ exclusionCatalog.photos, p.ID = 1) ∧
    (Search.FindPhotoByID exclusionCatalog 1).2 = some ErrRecordNotFound := by
  refine ⟨by decide, by decide, by decide, by decide, by decide, by decide⟩

/-! ## Shape of the bounding box -/

theorem effectiveDist_radius_bounds (form : PhotoSearchForm) :
    1 ≤ effectiveDist form ∧ effectiveDist form ≤ 1000 := by
  unfold effectiveDist
  split_ifs <;> omega

theorem float64_mono {m n : Nat} (h : m ≤ n) : float64 m ≤ float64 n := by
  unfold float64
  exact roundF64_mono (by exact_mod_cast h)

theorem searchRadius_nonneg : 0 ≤ SearchRadius := by
  rw [searchRadius_val]
  norm_num

theorem roundF64_searchRadius : roundF64 SearchRadius = SearchRadius := by
  rw [searchRadius_val,
    roundF64_eval (-7) 5188146770730811 (by norm_num) (by norm_num) (by norm_num)
      (by norm_num) (by rw [abs_lt]; constructor <;> norm_num)]
  norm_num

theorem roundF64_searchRadius_thousand : roundF64 (SearchRadius * 1000) = 9 := by
  rw [searchRadius_val,
    roundF64_eval 3 5066549580791808 (by norm_num) (by norm_num) (by norm_num)
      (by norm_num) (by rw [abs_lt]; constructor <;> norm_num)]
  norm_num

/-- The half-width grows with the effective radius. -/
theorem halfWidth_mono (form other : PhotoSearchForm)
    (h : effectiveDist form ≤ effectiveDist other) : halfWidth form ≤ halfWidth other := by
  unfold halfWidth f64Mul
  exact roundF64_mono (mul_le_mul_of_nonneg_left (float64_mono h) searchRadius_nonneg)

/-- The half-width lies between the float64 values 0.009 and 9. -/
theorem halfWidth_bounds (form : PhotoSearchForm) :
    SearchRadius ≤ halfWidth form ∧ halfWidth form ≤ 9 := by
  obtain ⟨h1, h2⟩ := effectiveDist_radius_bounds form
  have f1 : 1 ≤ float64 (effectiveDist form) := by
    rw [← float64_one]
    exact float64_mono h1
  have f2 : float64 (effectiveDist form) ≤ 1000 := by
    rw [← float64_thousand]
    exact float64_mono h2
  have hs := searchRadius_nonneg
  unfold halfWidth f64Mul
  constructor
  · have : SearchRadius ≤ SearchRadius * float64 (effectiveDist form) := by nlinarith
    have := roundF64_mono this
    rwa [roundF64_searchRadius] at this
  · have : SearchRadius * float64 (effectiveDist form) ≤ SearchRadius * 1000 :=
      mul_le_mul_of_nonneg_left f2 hs
    have := roundF64_mono this
    rwa [roundF64_searchRadius_thousand] at this

theorem halfWidth_nonneg (form : PhotoSearchForm) : 0 ≤ halfWidth form :=
  le_trans searchRadius_nonneg (halfWidth_bounds form).1

theorem toLower_eq_empty_iff (a b : String) (h : ToLower lower a = ToLower lower b) :
    a = "" ↔ b = "" := by
  have hd : a.data.map lower = b.data.map lower := by
    have := congrArg String.data h
    simpa [ToLower] using this
  have hl : a.data.length = b.data.length := by
    have := congrArg List.length hd
    simpa using this
  constructor
  · intro ha
    subst ha
    apply String.ext
    have : b.data.length = 0 := by rw [← hl]; rfl
    exact List.length_eq_zero.mp this
  · intro hb
    subst hb
    apply String.ext
    have : a.data.length = 0 := by rw [hl]; rfl
    exact List.length_eq_zero.mp this

theorem likeString_congr (a b : String) (h : ToLower lower a = ToLower lower b) :
    likeString lower a = likeString lower b := by
  unfold likeString
  rw [h]

/-- C19: criteria that agree in every field except that the query, title,
description and notes differ in letter case only compose the same query, with
the same conditions and bound parameters, in location mode and outside it. -/
theorem letter_case_irrelevant (form : PhotoSearchForm) (query title description notes : String)
    (hq : ToLower lower query = ToLower lower form.Query)
    (ht : ToLower lower title = ToLower lower form.Title)
    (hd : ToLower lower description = ToLower lower form.Description)
    (hn : ToLower lower notes = ToLower lower form.Notes) :
    photosQuery lower { form with
      Query := query, Title := title, Description := description, Notes := notes } =
      photosQuery lower form := by
  have hw : photosWheres lower { form with
      Query := query, Title := title, Description := description, Notes := notes } =
      photosWheres lower form := by
    have eq : (query = "") = (form.Query = "") := propext (toLower_eq_empty_iff _ _ hq)
    have et : (title = "") = (form.Title = "") := propext (toLower_eq_empty_iff _ _ ht)
    have ed : (description = "") = (form.Description = "") :=
      propext (toLower_eq_empty_iff _ _ hd)
    have en : (notes = "") = (form.Notes = "") := propext (toLower_eq_empty_iff _ _ hn)
    simp only [photosWheres, textWheres, fieldWheres, chromaWheres, apertureWheres, geoWheres,
      dateWheres, halfWidth, effectiveDist, ne_eq, eq, et, ed, en, likeString_congr _ _ hq,
      likeString_congr _ _ ht, likeString_congr _ _ hd, likeString_congr _ _ hn]
  simp only [photosQuery, photosOrder, photosWindow, hw]

/-- Witness of C19: the query "MÜNCHEN" and title "SUNSET" against "münchen"
and "sunset", in location mode and outside it; both compose the pattern
"%münchen%". -/
theorem letter_case_irrelevant_witness :
    ToLower latin1Lower "MÜNCHEN" = "münchen" ∧
    photosQuery latin1Lower { Query := "MÜNCHEN", Title := "SUNSET", Location := true } =
      photosQuery latin1Lower { Query := "münchen", Title := "sunset", Location := true } ∧
    photosQuery latin1Lower { Query := "MÜNCHEN", Title := "SUNSET", Location := false } =
      photosQuery latin1Lower { Query := "münchen", Title := "sunset", Location := false } ∧
    (photosQuery latin1Lower { Query := "MÜNCHEN", Location := true }).wheres =
      [Pred.base, Pred.locationExists, Pred.locNameLike "%münchen%"] :=
  ⟨by decide,
   letter_case_irrelevant { Query := "münchen", Title := "sunset", Location := true }
      "MÜNCHEN" "SUNSET" "" "" (by decide) (by decide) (by decide) (by decide),
   letter_case_irrelevant { Query := "münchen", Title := "sunset", Location := false }
      "MÜNCHEN" "SUNSET" "" "" (by decide) (by decide) (by decide) (by decide),
   by decide⟩

end Photoprism
